import Mathlib

/-!
Shallow embedding of `mm/compaction.c` (memory compaction engine) and
verification of its specification claims.

Machine integers are modelled as `Nat` (PFNs, counts, flags) and `Int`
(the requested order, whose sentinel is `-1`).  External collaborators
(buddy allocator watermark checks, fragmentation index, LRU isolation,
page migration) are modelled as oracle fields / environment streams, as
the spec places them out of scope.  Scheduler and lock observations
(`need_resched() || spin_is_contended()`, `fatal_signal_pending()`)
are environment inputs indexed by the point at which the code samples
them.
-/

namespace Compaction

/-! ## Build-time constants (ARM defconfig of this kernel tree) -/

def MAX_ORDER : Nat := 11
def MAX_ORDER_NR_PAGES : Nat := 2 ^ (MAX_ORDER - 1)
def pageblock_order : Nat := 10
def pageblock_nr_pages : Nat := 2 ^ pageblock_order
def SWAP_CLUSTER_MAX : Nat := 32
def COMPACT_CLUSTER_MAX : Nat := SWAP_CLUSTER_MAX

/-- Compaction status codes, numeric as in `include/linux/compaction.h`
(`rc = max(status, rc)` in the entry point relies on this order). -/
def COMPACT_SKIPPED : Nat := 0
def COMPACT_CONTINUE : Nat := 1
def COMPACT_PARTIAL : Nat := 2
def COMPACT_COMPLETE : Nat := 3

/-- Migrate types as laid out in `include/linux/mmzone.h` for this tree. -/
def MIGRATE_UNMOVABLE : Nat := 0
def MIGRATE_RECLAIMABLE : Nat := 1
def MIGRATE_MOVABLE : Nat := 2
def MIGRATE_PCPTYPES : Nat := 3
def MIGRATE_RESERVE : Nat := 3
def MIGRATE_CMA : Nat := 4
def MIGRATE_ISOLATE : Nat := 5

def ISOLATE_ASYNC_MIGRATE : Nat := 16

/-- The C macro `ALIGN(x, a)` for the power-of-two alignments used in the source. -/
def ALIGN (x a : Nat) : Nat := ((x + a - 1) / a) * a

/-! ## Data model -/

/-- One buddy free area: `zone->free_area[order]`, with per-migratetype
free lists (we record the page ids on each list) and the `nr_free` count. -/
structure FreeArea where
  free_list : Nat → List Nat
  nr_free : Nat

/-- A zone.  Watermark evaluation and the fragmentation index belong to the
buddy allocator (out of scope per the spec), so they are oracle fields:
`watermark_ok order mark` stands for `zone_watermark_ok(zone, order, mark, 0, 0)`
and `fragindex order` for `fragmentation_index(zone, order)`. -/
structure Zone where
  zone_start_pfn : Nat
  spanned_pages : Nat
  low_wmark : Nat
  free_area : Nat → FreeArea
  watermark_ok : Nat → Nat → Bool
  fragindex : Nat → Int
  populated : Bool
  compact_order_failed : Int
  defer_count : Nat
  zone_id : Nat

/-- The per-invocation compaction control block (`struct compact_control`).
`page` models the `struct page **` capture slot: `none` = null pointer,
`some b` = slot present with `b` recording whether a page has been stored.
`contended` likewise models the optional `bool *` back-reference. -/
structure CompactControl where
  nr_freepages : Nat
  nr_migratepages : Nat
  freepages : List Nat
  migratepages : List Nat
  order : Int
  migratetype : Nat
  zone_id : Nat
  sync : Bool
  migrate_pfn : Nat
  free_pfn : Nat
  contended : Option Bool
  page : Option Bool

/-- Per-PFN page description: the fields of `struct page` (and the per-PFN
validity macros) that the compaction scanners examine.  `isolate_fails mode`
models `__isolate_lru_page(page, mode) != 0`, an external LRU primitive. -/
structure Page where
  pfn_valid : Bool
  valid_within : Bool
  zone_id : Nat
  is_buddy : Bool
  buddy_order : Nat
  split_result : Nat
  migratetype : Nat
  is_lru : Bool
  trans_huge : Bool
  compound_order : Nat
  isolate_fails : Nat → Bool
  is_file_cache : Bool

/-- Physical memory as a map from PFN to page description. -/
def Mem : Type := Nat → Page

/-! ## Lock arbitration (4.A, `compact_checklock_irqsave`) -/

/-- One observation of the contended locks / scheduler at a check point:
`contended` is `need_resched() || spin_is_contended(lock)`, `fatal` is
`fatal_signal_pending(current)` sampled after the `cond_resched()`. -/
structure LockObs where
  contended : Bool
  fatal : Bool

/-- Model of `compact_checklock_irqsave`: returns whether the lock is held on return
(`false` means the scan must abort).  The result does not depend on the
`locked` flag the caller passes; that flag only selects unlock actions. -/
def compact_checklock_irqsave (obs : LockObs) (sync : Bool) : Bool :=
  if obs.contended then
    if !sync then false
    else if obs.fatal then false
    else true
  else true

/-- The contended back-reference update performed by
`compact_checklock_irqsave` (`*cc->contended = true` on an async abort). -/
def checklock_contended_update (obs : LockObs) (sync : Bool)
    (contended : Option Bool) : Option Bool :=
  if obs.contended && !sync then contended.map (fun _ => true) else contended

/-! ## Termination predicate (`compact_finished`) and suitability gate -/

/-- The free-area scan at the end of `compact_finished` (source lines
568-578).  The loop variable runs from `cc->order` to `MAX_ORDER`, but the
body reads `zone->free_area[cc->order]` and compares `cc->order` with
`pageblock_order`, so every iteration performs the same test. -/
def compact_finished_scan (zone : Zone) (cc : CompactControl) : Bool :=
  (List.range' cc.order.toNat (MAX_ORDER - cc.order.toNat)).any (fun _ord =>
    let area := zone.free_area cc.order.toNat
    !(area.free_list cc.migratetype).isEmpty ||
      (decide ((pageblock_order : Int) ≤ cc.order) && (area.nr_free != 0)))

/-- Modelled from the spec: the free-area scan as §4.G.5 words it
("scan free-areas at orders ≥ cc.order ... if any non-empty, or if order ≥
pageblock_order and the area has any free pages"), i.e. indexing by the
loop variable.  Used only to exhibit the divergence from the source. -/
def compact_finished_scan_spec (zone : Zone) (cc : CompactControl) : Bool :=
  (List.range' cc.order.toNat (MAX_ORDER - cc.order.toNat)).any (fun ord =>
    let area := zone.free_area ord
    !(area.free_list cc.migratetype).isEmpty ||
      (decide (pageblock_order ≤ ord) && (area.nr_free != 0)))

/-- Model of `compact_finished` (source lines 540-582).  `fatal` is
`fatal_signal_pending(current)` at entry. -/
def compact_finished (zone : Zone) (cc : CompactControl) (fatal : Bool) : Nat :=
  if fatal then COMPACT_PARTIAL
  else if cc.free_pfn ≤ cc.migrate_pfn then COMPACT_COMPLETE
  else if cc.order = -1 then COMPACT_CONTINUE
  else
    let watermark := zone.low_wmark + 2 ^ cc.order.toNat
    if !(zone.watermark_ok cc.order.toNat watermark) then COMPACT_CONTINUE
    else
      match cc.page with
      | some captured => if captured then COMPACT_PARTIAL else COMPACT_CONTINUE
      | none =>
        if compact_finished_scan zone cc then COMPACT_PARTIAL
        else COMPACT_CONTINUE

/-- Model of `compaction_suitable` (source lines 584-605). -/
def compaction_suitable (zone : Zone) (order : Int)
    (extfrag_threshold : Int) : Nat :=
  if order = -1 then COMPACT_CONTINUE
  else
    let watermark := zone.low_wmark + 2 * 2 ^ order.toNat
    if !(zone.watermark_ok 0 watermark) then COMPACT_SKIPPED
    else
      let fragidx := zone.fragindex order.toNat
      if 0 ≤ fragidx ∧ fragidx ≤ extfrag_threshold then COMPACT_SKIPPED
      else if fragidx = -1000 ∧ zone.watermark_ok order.toNat watermark then
        COMPACT_PARTIAL
      else COMPACT_CONTINUE

/-! ## Free-page block isolator (4.B, `isolate_freepages_block`) -/

/-- Model of `migrate_async_suitable`: MOVABLE or CMA blocks (source lines 48-51,
with `CONFIG_CMA` so `is_migrate_cma(t)` is `t == MIGRATE_CMA`). -/
def migrate_async_suitable (migratetype : Nat) : Bool :=
  migratetype = MIGRATE_CMA || migratetype = MIGRATE_MOVABLE

/-- The effect of `isolated` successive `list_add(&page->lru, freelist)`
calls for pages `base, base+1, ...`: each prepends, so the pages end up in
front of the old list in descending PFN order. -/
def addPagesFront (base count : Nat) (freelist : List Nat) : List Nat :=
  ((List.range count).map (fun i => base + i)).reverse ++ freelist

/-- The scan loop of `isolate_freepages_block` (source lines 165-197).
Carries the running `total_isolated` and the private freelist.  The three
strict aborts return 0 but keep whatever is already on the list, exactly as
the source comment warns ("even though it may still end up isolating some
pages").  `split_free_page` is the buddy collaborator; its per-page result
is the `split_result` field. -/
def isolate_freepages_block_loop (mem : Mem) (end_pfn : Nat) (strict : Bool)
    (blockpfn total : Nat) (freelist : List Nat) : Nat × List Nat :=
  if h : blockpfn < end_pfn then
    let p := mem blockpfn
    if !p.valid_within then
      if strict then (0, freelist)
      else isolate_freepages_block_loop mem end_pfn strict (blockpfn + 1)
        total freelist
    else if !p.is_buddy then
      if strict then (0, freelist)
      else isolate_freepages_block_loop mem end_pfn strict (blockpfn + 1)
        total freelist
    else
      let isolated := p.split_result
      if hz : isolated = 0 then
        if strict then (0, freelist)
        else isolate_freepages_block_loop mem end_pfn strict (blockpfn + 1)
          (total + isolated) freelist
      else
        isolate_freepages_block_loop mem end_pfn strict (blockpfn + isolated)
          (total + isolated) (addPagesFront blockpfn isolated freelist)
  else (total, freelist)
termination_by end_pfn - blockpfn
decreasing_by
  all_goals simp_wf
  all_goals first
    | omega
    | (have h2 : (mem blockpfn).split_result ≠ 0 := hz; omega)

/-- Model of `isolate_freepages_block` (source lines 154-201): scan `[blockpfn,
end_pfn)`, returning the total number of order-0 pages isolated and the
grown freelist. -/
def isolate_freepages_block (mem : Mem) (blockpfn end_pfn : Nat)
    (freelist : List Nat) (strict : Bool) : Nat × List Nat :=
  isolate_freepages_block_loop mem end_pfn strict blockpfn 0 freelist

/-! ## Strict range isolation (`isolate_freepages_range`) -/

/-- The block-at-a-time loop of `isolate_freepages_range` (source lines
213-228).  `zone` is the zone of `start_pfn` when that PFN was valid
(`page_zone(pfn_to_page(start_pfn))`), else `none`.  Stops (without the
final cleanup) at an invalid PFN, a zone change, or a strict isolation
failure. -/
def isolate_freepages_range_loop (mem : Mem) (end_pfn : Nat)
    (zone : Option Nat) (pfn : Nat) (freelist : List Nat) : Nat × List Nat :=
  if h : pfn < end_pfn then
    if !(mem pfn).pfn_valid || zone ≠ some (mem pfn).zone_id then
      (pfn, freelist)
    else
      let block_end_pfn := min (ALIGN (pfn + 1) pageblock_nr_pages) end_pfn
      let r := isolate_freepages_block mem pfn block_end_pfn freelist true
      if hz : r.1 = 0 then (pfn, r.2)
      else isolate_freepages_range_loop mem end_pfn zone (pfn + r.1) r.2
  else (pfn, freelist)
termination_by end_pfn - pfn
decreasing_by
  simp_wf
  have h2 : (isolate_freepages_block mem pfn
      (min (ALIGN (pfn + 1) pageblock_nr_pages) end_pfn) freelist true).1 ≠ 0 := hz
  omega

/-- Model of `isolate_freepages_range` (source lines 203-241).  Returns the final
PFN together with the retained private list: on any mid-range stop every
already-isolated page is released (`release_freepages`) and the result is
`(0, [])`; otherwise the result PFN is past `end_pfn` and the list holds
everything isolated. -/
def isolate_freepages_range (mem : Mem) (start_pfn end_pfn : Nat) :
    Nat × List Nat :=
  let zone : Option Nat :=
    if (mem start_pfn).pfn_valid then some (mem start_pfn).zone_id else none
  let r := isolate_freepages_range_loop mem end_pfn zone start_pfn []
  if r.1 < end_pfn then (0, [])
  else (r.1, r.2)

/-! ## Migrate-page range isolator (4.C, `isolate_migratepages_range`) -/

/-- The six `zone_page_state` counters read by `too_many_isolated`.  They
are shared with concurrent reclaim, so the backpressure loop observes a
fresh snapshot on each test. -/
structure ZoneCtrs where
  nr_inactive_file : Nat
  nr_inactive_anon : Nat
  nr_active_file : Nat
  nr_active_anon : Nat
  nr_isolated_file : Nat
  nr_isolated_anon : Nat

/-- Model of `too_many_isolated` (source lines 262-274). -/
def too_many_isolated (c : ZoneCtrs) : Bool :=
  let inactive := c.nr_inactive_file + c.nr_inactive_anon
  let active := c.nr_active_file + c.nr_active_anon
  let isolated := c.nr_isolated_file + c.nr_isolated_anon
  decide (isolated > (inactive + active) / 2)

/-- The backpressure `while` loop at the head of
`isolate_migratepages_range` (source lines 287-296).  `ctrs i` is the
counter snapshot at the i-th test, `fatal i` the signal state after the
i-th `congestion_wait`.  `some false` models `return 0`; `some true` means
the scan may proceed; `none` means the loop is still waiting when the
observation fuel runs out (the wait is unbounded in the source). -/
def too_many_isolated_wait (sync : Bool) (ctrs : Nat → ZoneCtrs)
    (fatal : Nat → Bool) : Nat → Nat → Option Bool
  | _, 0 => none
  | i, fuel + 1 =>
    if too_many_isolated (ctrs i) then
      if !sync then some false
      else if fatal i then some false
      else too_many_isolated_wait sync ctrs fatal (i + 1) fuel
    else some true

/-- Environment of one `isolate_migratepages_range` call: the page map,
the lock/scheduler observation at each PFN's `compact_checklock_irqsave`,
and the backpressure observations. -/
structure MigEnv where
  mem : Mem
  lock_obs : Nat → LockObs
  bp_ctrs : Nat → ZoneCtrs
  bp_fatal : Nat → Bool
  bp_fuel : Nat

/-- The main scan loop of `isolate_migratepages_range` (source lines
302-373).  Returns the final `low_pfn` (the function's return value) and
the control block with the grown migratelist.  `locked` and
`last_pageblock_nr` are the loop-carried locals; `mode` is the isolation
mode accumulated across iterations.  A `compact_checklock_irqsave` abort
breaks out and returns the current `low_pfn` (it does not return 0). -/
def isolate_migratepages_scan (zone : Zone) (env : MigEnv) (end_pfn : Nat)
    (low_pfn : Nat) (cc : CompactControl) (locked : Bool)
    (last_pageblock_nr : Nat) (mode : Nat) : Nat × CompactControl :=
  if h : low_pfn < end_pfn then
    -- periodically release the LRU lock (every SWAP_CLUSTER_MAX pages)
    let locked := if (low_pfn + 1) % SWAP_CLUSTER_MAX = 0 then false else locked
    let obs := env.lock_obs low_pfn
    let cc := { cc with
      contended := checklock_contended_update obs cc.sync cc.contended }
    let locked := compact_checklock_irqsave obs cc.sync
    if !locked then (low_pfn, cc)
    else
      let p := env.mem low_pfn
      if low_pfn % MAX_ORDER_NR_PAGES = 0 && !p.pfn_valid then
        -- low_pfn += MAX_ORDER_NR_PAGES - 1, then the loop increment
        isolate_migratepages_scan zone env end_pfn
          (low_pfn + MAX_ORDER_NR_PAGES) cc locked last_pageblock_nr mode
      else if !p.valid_within then
        isolate_migratepages_scan zone env end_pfn (low_pfn + 1) cc locked
          last_pageblock_nr mode
      else if p.zone_id ≠ zone.zone_id then
        isolate_migratepages_scan zone env end_pfn (low_pfn + 1) cc locked
          last_pageblock_nr mode
      else if p.is_buddy then
        isolate_migratepages_scan zone env end_pfn (low_pfn + 1) cc locked
          last_pageblock_nr mode
      else
        let pageblock_nr := low_pfn >>> pageblock_order
        if !cc.sync && last_pageblock_nr ≠ pageblock_nr &&
            !migrate_async_suitable p.migratetype then
          -- low_pfn += pageblock_nr_pages; ALIGN down minus one; loop increment
          isolate_migratepages_scan zone env end_pfn
            (ALIGN (low_pfn + pageblock_nr_pages) pageblock_nr_pages) cc
            locked pageblock_nr mode
        else if !p.is_lru then
          isolate_migratepages_scan zone env end_pfn (low_pfn + 1) cc locked
            last_pageblock_nr mode
        else if p.trans_huge then
          isolate_migratepages_scan zone env end_pfn
            (low_pfn + 2 ^ p.compound_order) cc locked last_pageblock_nr mode
        else
          let mode := if !cc.sync then mode ||| ISOLATE_ASYNC_MIGRATE else mode
          if p.isolate_fails mode then
            isolate_migratepages_scan zone env end_pfn (low_pfn + 1) cc locked
              last_pageblock_nr mode
          else
            let cc := { cc with
              migratepages := low_pfn :: cc.migratepages,
              nr_migratepages := cc.nr_migratepages + 1 }
            if cc.nr_migratepages = COMPACT_CLUSTER_MAX then (low_pfn + 1, cc)
            else
              isolate_migratepages_scan zone env end_pfn (low_pfn + 1) cc
                locked last_pageblock_nr mode
  else (low_pfn, cc)
termination_by end_pfn - low_pfn
decreasing_by
  all_goals simp_wf
  all_goals first
    | omega
    | (have h1 : 0 < MAX_ORDER_NR_PAGES := by decide
       omega)
    | (have h1 : low_pfn + 1 ≤ ALIGN (low_pfn + pageblock_nr_pages)
          pageblock_nr_pages := by
         simp only [ALIGN, pageblock_nr_pages, pageblock_order]
         omega
       omega)
    | (have h1 : 0 < 2 ^ (env.mem low_pfn).compound_order :=
         pow_pos (by norm_num) _
       omega)

/-- Model of `isolate_migratepages_range` (source lines 276-383): backpressure
first (`0` return on an async abort or a fatal signal during the sync
wait), then the scan under the LRU lock; `none` when the backpressure
wait is still blocked past the observation fuel.  The zone isolated-page
accounting (`acct_isolated`) writes external per-zone counters and is not
part of the returned state. -/
def isolate_migratepages_range (zone : Zone) (cc : CompactControl)
    (env : MigEnv) (low_pfn end_pfn : Nat) : Option (Nat × CompactControl) :=
  match too_many_isolated_wait cc.sync env.bp_ctrs env.bp_fatal 0 env.bp_fuel with
  | none => none
  | some false => some (0, cc)
  | some true =>
    some (isolate_migratepages_scan zone env end_pfn low_pfn cc true 0 0)

/-! ## Migrate-page sweep (4.E, `isolate_migratepages`) -/

inductive isolate_migrate_t where
  | ISOLATE_ABORT
  | ISOLATE_NONE
  | ISOLATE_SUCCESS
deriving DecidableEq, Repr

/-- Model of `isolate_migratepages` (source lines 513-538): one pageblock per call.
The `ISOLATE_NONE` path (`end_pfn > cc->free_pfn || !pfn_valid(low_pfn)`)
advances `cc->migrate_pfn` to the pageblock-aligned `end_pfn`
unconditionally.  A 0 return from the range isolator maps to
`ISOLATE_ABORT`; any other return becomes the new `migrate_pfn` with
`ISOLATE_SUCCESS`. -/
def isolate_migratepages (zone : Zone) (cc : CompactControl) (env : MigEnv) :
    Option (isolate_migrate_t × CompactControl) :=
  let low_pfn := max cc.migrate_pfn zone.zone_start_pfn
  let end_pfn := ALIGN (low_pfn + pageblock_nr_pages) pageblock_nr_pages
  if end_pfn > cc.free_pfn || !(env.mem low_pfn).pfn_valid then
    some (.ISOLATE_NONE, { cc with migrate_pfn := end_pfn })
  else
    match isolate_migratepages_range zone cc env low_pfn end_pfn with
    | none => none
    | some (r, cc') =>
      if r = 0 then some (.ISOLATE_ABORT, cc')
      else some (.ISOLATE_SUCCESS, { cc' with migrate_pfn := r })

/-! ## Free-page sweep (4.D, `isolate_freepages`) -/

/-- Model of `suitable_migration_target` (source lines 388-407). -/
def suitable_migration_target (p : Page) : Bool :=
  if p.migratetype = MIGRATE_ISOLATE || p.migratetype = MIGRATE_RESERVE then
    false
  else if p.is_buddy && pageblock_order ≤ p.buddy_order then true
  else if migrate_async_suitable p.migratetype then true
  else false

/-- The downward pageblock walk of `isolate_freepages` (source lines
425-461).  Carries the local `nr_freepages`, the private freelist, the
`high_pfn` watermark of the highest block drawn from, and the contended
back-reference.  The walk stops when the cursor meets
`low_pfn = migrate_pfn + pageblock_nr_pages`, when enough destinations
exist, or when `compact_trylock_irqsave` aborts. -/
def isolate_freepages_loop (zone : Zone) (env : MigEnv) (sync : Bool)
    (low_pfn zone_end_pfn nr_migratepages : Nat) (pfn : Nat)
    (nr_freepages : Nat) (freelist : List Nat) (high_pfn : Nat)
    (contended : Option Bool) :
    Nat × Nat × List Nat × Option Bool :=
  if h : low_pfn < pfn ∧ nr_freepages < nr_migratepages then
    let next := pfn - pageblock_nr_pages
    let p := env.mem pfn
    if !p.pfn_valid then
      isolate_freepages_loop zone env sync low_pfn zone_end_pfn
        nr_migratepages next nr_freepages freelist high_pfn contended
    else if p.zone_id ≠ zone.zone_id then
      isolate_freepages_loop zone env sync low_pfn zone_end_pfn
        nr_migratepages next nr_freepages freelist high_pfn contended
    else if !suitable_migration_target p then
      isolate_freepages_loop zone env sync low_pfn zone_end_pfn
        nr_migratepages next nr_freepages freelist high_pfn contended
    else
      let obs := env.lock_obs pfn
      let contended := checklock_contended_update obs sync contended
      if !compact_checklock_irqsave obs sync then
        (high_pfn, nr_freepages, freelist, contended)
      else
        -- re-check suitability under the lock (same page in this model)
        if suitable_migration_target p then
          let end_pfn := min (pfn + pageblock_nr_pages) zone_end_pfn
          let r := isolate_freepages_block env.mem pfn end_pfn freelist false
          let nr_freepages := nr_freepages + r.1
          if r.1 ≠ 0 then
            isolate_freepages_loop zone env sync low_pfn zone_end_pfn
              nr_migratepages next nr_freepages r.2 (max high_pfn pfn)
              contended
          else
            isolate_freepages_loop zone env sync low_pfn zone_end_pfn
              nr_migratepages next nr_freepages r.2 high_pfn contended
        else
          isolate_freepages_loop zone env sync low_pfn zone_end_pfn
            nr_migratepages next nr_freepages freelist high_pfn contended
  else (high_pfn, nr_freepages, freelist, contended)
termination_by pfn
decreasing_by
  all_goals simp_wf
  all_goals
    (have h1 : 0 < pageblock_nr_pages := by decide
     omega)

/-- Model of `isolate_freepages` (source lines 409-468): sweep free pages into
`cc.freepages` and move `cc.free_pfn` down to the highest block drawn
from. -/
def isolate_freepages (zone : Zone) (cc : CompactControl) (env : MigEnv) :
    CompactControl :=
  let pfn := cc.free_pfn
  let low_pfn := cc.migrate_pfn + pageblock_nr_pages
  let high_pfn := min low_pfn pfn
  let zone_end_pfn := zone.zone_start_pfn + zone.spanned_pages
  let r := isolate_freepages_loop zone env cc.sync low_pfn zone_end_pfn
    cc.nr_migratepages pfn cc.nr_freepages cc.freepages high_pfn cc.contended
  { cc with
    free_pfn := r.1
    nr_freepages := r.2.1
    freepages := r.2.2.1
    contended := r.2.2.2 }

/-! ## List plumbing (`release_freepages`, `update_nr_listpages`) -/

/-- Model of `release_freepages` (source lines 24-36): every page on the list is
handed back to the buddy allocator; the return value is the count. -/
def release_freepages (freelist : List Nat) : Nat :=
  freelist.length

/-- Model of `update_nr_listpages` (source lines 492-505): recount both private
lists. -/
def update_nr_listpages (cc : CompactControl) : CompactControl :=
  { cc with
    nr_migratepages := cc.migratepages.length
    nr_freepages := cc.freepages.length }

/-! ## Capture path (4.F, `compact_capture_page`) -/

/-- Environment of one `compact_capture_page` call: the trylock
observation and the `capture_free_page` collaborator's outcome for each
(migratetype, order) attempt. -/
structure CaptureEnv where
  trylock : Nat → Nat → LockObs
  capture_ok : Nat → Nat → Bool

/-- The nested (migratetype × order) scan of `compact_capture_page`
(source lines 121-145), flattened into the list of visited pairs.  The
first free list found non-empty is attempted under the zone trylock; a
trylock abort returns immediately (slot untouched), a successful
`capture_free_page` fills the slot. -/
def compact_capture_loop (zone : Zone) (env : CaptureEnv) (sync : Bool) :
    List (Nat × Nat) → CompactControl → CompactControl
  | [], cc => cc
  | (mtype, ord) :: rest, cc =>
    if ((zone.free_area ord).free_list mtype).isEmpty then
      compact_capture_loop zone env sync rest cc
    else
      let obs := env.trylock mtype ord
      let cc := { cc with
        contended := checklock_contended_update obs sync cc.contended }
      if !compact_checklock_irqsave obs sync then cc
      else if env.capture_ok mtype ord then { cc with page := some true }
      else compact_capture_loop zone env sync rest cc

/-- Model of `compact_capture_page` (source lines 94-146). -/
def compact_capture_page (zone : Zone) (cc : CompactControl)
    (env : CaptureEnv) : CompactControl :=
  match cc.page with
  | none => cc
  | some true => cc
  | some false =>
    let mtypes :=
      if cc.migratetype = MIGRATE_MOVABLE then List.range MIGRATE_PCPTYPES
      else [cc.migratetype]
    let orders := List.range' cc.order.toNat (MAX_ORDER - cc.order.toNat)
    let pairs := mtypes.flatMap (fun mt => orders.map (fun ord => (mt, ord)))
    compact_capture_loop zone env cc.sync pairs cc

/-! ## Zone compaction driver (4.G, `compact_zone`) -/

/-- Outcome of one `migrate_pages` call (external migration engine,
source line 644).  `remaining` is what is left on `cc->migratepages`;
`freepages`, `nr_freepages` and `free_pfn` reflect the activity of the
`compaction_alloc` callback (which pops destinations and lazily runs
`isolate_freepages`). -/
structure MigrateOut where
  err : Int
  remaining : List Nat
  freepages : List Nat
  nr_freepages : Nat
  free_pfn : Nat

/-- Environment of one zone run: per-iteration signal observations at
`compact_finished`, per-iteration scanner environments, the external
`migrate_pages` engine, and per-iteration capture environments. -/
structure ZoneRunEnv where
  finished_fatal : Nat → Bool
  mig : Nat → MigEnv
  migrate : Nat → List Nat → MigrateOut
  capture : Nat → CaptureEnv

/-- The error code `-ENOMEM`. -/
def ENOMEM_err : Int := -12

/-- The `out:` epilogue of `compact_zone` (source lines 671-676):
release all residual free pages back to the buddy allocator
(`cc->nr_freepages -= release_freepages(&cc->freepages)`). -/
def compact_zone_out (ret : Nat) (cc : CompactControl) :
    Nat × CompactControl :=
  (ret, { cc with
    nr_freepages := cc.nr_freepages - release_freepages cc.freepages
    freepages := [] })

/-- The migration step of one `compact_zone` iteration (source lines
644-665, minus the event counters): absorb the `migrate_pages` outcome,
recount both lists (`update_nr_listpages`), and on a migration error put
the failed pages back on the LRU, clearing the migrate list. -/
def migration_epilogue (m : MigrateOut) (cc : CompactControl) :
    CompactControl :=
  let cc := { cc with
    migratepages := m.remaining
    freepages := m.freepages
    nr_freepages := m.nr_freepages
    free_pfn := m.free_pfn }
  let cc := update_nr_listpages cc
  -- on migration error: putback_lru_pages, clear the migrate list
  if m.err ≠ 0 then { cc with migratepages := [], nr_migratepages := 0 }
  else cc

/-- The main loop of `compact_zone` (source lines 629-669), indexed by the
iteration counter `i` for the environment streams and bounded by `fuel`
(`none` = the run has not terminated within `fuel` iterations). -/
def compact_zone_loop (zone : Zone) (env : ZoneRunEnv) :
    Nat → Nat → CompactControl → Option (Nat × CompactControl)
  | 0, _, _ => none
  | fuel + 1, i, cc =>
    let ret := compact_finished zone cc (env.finished_fatal i)
    if ret ≠ COMPACT_CONTINUE then some (compact_zone_out ret cc)
    else
      match isolate_migratepages zone cc (env.mig i) with
      | none => none
      | some (.ISOLATE_ABORT, cc) =>
        some (compact_zone_out COMPACT_PARTIAL cc)
      | some (.ISOLATE_NONE, cc) => compact_zone_loop zone env fuel (i + 1) cc
      | some (.ISOLATE_SUCCESS, cc) =>
        let m := env.migrate i cc.migratepages
        let cc2 := migration_epilogue m cc
        if m.err ≠ 0 ∧ m.err = ENOMEM_err then
          some (compact_zone_out COMPACT_PARTIAL cc2)
        else
          compact_zone_loop zone env fuel (i + 1)
            (compact_capture_page zone cc2 (env.capture i))

/-- Align down to a pageblock boundary:
`x &= ~(pageblock_nr_pages - 1)` for the power-of-two block size. -/
def pageblock_align_down (x : Nat) : Nat :=
  (x / pageblock_nr_pages) * pageblock_nr_pages

/-- Model of `compact_zone` (source lines 607-677). -/
def compact_zone (zone : Zone) (cc : CompactControl) (env : ZoneRunEnv)
    (extfrag_threshold : Int) (fuel : Nat) : Option (Nat × CompactControl) :=
  let ret := compaction_suitable zone cc.order extfrag_threshold
  if ret = COMPACT_PARTIAL ∨ ret = COMPACT_SKIPPED then some (ret, cc)
  else
    let cc := { cc with migrate_pfn := zone.zone_start_pfn }
    let cc := { cc with
      free_pfn := pageblock_align_down (cc.migrate_pfn + zone.spanned_pages) }
    compact_zone_loop zone env fuel 0 cc

/-! ## Zone-list entry point (4.H, `try_to_compact_pages`) -/

/-- The `___GFP_FS` and `___GFP_IO` bit values from `include/linux/gfp.h`. -/
def GFP_FS_BIT : Nat := 0x80
def GFP_IO_BIT : Nat := 0x40

/-- Modelled from the spec: `allocflags_to_migratetype` lives in
`include/linux/gfp.h`, outside this repository's source; the spec only
says the control block records "the caller's preferred migrate type".
The header derives it from the `__GFP_MOVABLE` (0x08) and
`__GFP_RECLAIMABLE` (0x80000) bits. -/
def allocflags_to_migratetype (gfp_mask : Nat) : Nat :=
  2 * (if gfp_mask &&& 0x08 ≠ 0 then 1 else 0) +
    (if gfp_mask &&& 0x80000 ≠ 0 then 1 else 0)

/-- Model of `compact_zone_order` (source lines 679-698): build a fresh control
block for one zone and run the driver.  `page_slot` is `some false` when
the caller supplied an (empty) capture cell, `none` otherwise; likewise
`contended` for the contention back-reference. -/
def compact_zone_order (zone : Zone) (order : Int) (gfp_mask : Nat)
    (sync : Bool) (contended : Option Bool) (page_slot : Option Bool)
    (env : ZoneRunEnv) (extfrag_threshold : Int) (fuel : Nat) :
    Option (Nat × CompactControl) :=
  let cc : CompactControl := {
    nr_freepages := 0
    nr_migratepages := 0
    freepages := []
    migratepages := []
    order := order
    migratetype := allocflags_to_migratetype gfp_mask
    zone_id := zone.zone_id
    sync := sync
    migrate_pfn := 0
    free_pfn := 0
    contended := contended
    page := page_slot }
  compact_zone zone cc env extfrag_threshold fuel

/-- The zone iteration of `try_to_compact_pages` (source lines 720-731):
fold the statuses with `max`, and stop as soon as a zone's low watermark
is satisfied at the requested order. -/
def try_to_compact_pages_loop (order : Int) (gfp_mask : Nat) (sync : Bool)
    (contended : Option Bool) (page_slot : Option Bool)
    (envs : Nat → ZoneRunEnv) (extfrag_threshold : Int) (fuel : Nat) :
    List Zone → Nat → Nat → Option Nat
  | [], _, rc => some rc
  | zone :: zs, i, rc =>
    match compact_zone_order zone order gfp_mask sync contended page_slot
        (envs i) extfrag_threshold fuel with
    | none => none
    | some (status, _) =>
      let rc := max status rc
      if zone.watermark_ok order.toNat zone.low_wmark then some rc
      else try_to_compact_pages_loop order gfp_mask sync contended page_slot
        envs extfrag_threshold fuel zs (i + 1) rc

/-- Model of `try_to_compact_pages` (source lines 702-734).  `zones` is the
zonelist already filtered by the high zone index and nodemask (zone
iteration machinery is out of scope per the spec). -/
def try_to_compact_pages (zones : List Zone) (order : Int) (gfp_mask : Nat)
    (sync : Bool) (contended : Option Bool) (page_slot : Option Bool)
    (envs : Nat → ZoneRunEnv) (extfrag_threshold : Int) (fuel : Nat) :
    Option Nat :=
  let may_enter_fs := gfp_mask &&& GFP_FS_BIT
  let may_perform_i_o := gfp_mask &&& GFP_IO_BIT
  if order = 0 ∨ may_enter_fs = 0 ∨ may_perform_i_o = 0 then
    some COMPACT_SKIPPED
  else
    try_to_compact_pages_loop order gfp_mask sync contended page_slot envs
      extfrag_threshold fuel zones 0 COMPACT_SKIPPED

/-! ## Node drivers (4.I, `__compact_pgdat` and friends) -/

/-- Modelled from the spec: `compaction_deferred` and `defer_compaction`
live in `include/linux/compaction.h`, outside this repository's source.
Per spec §4.I the former is a per-zone deferral predicate (modelled by the
oracle field `populated`/`defer` data on the zone) and the latter "raises
the zone's deferral counter". -/
def compaction_deferred_oracle (deferred : Nat → Int → Bool) (zidx : Nat)
    (order : Int) : Bool :=
  deferred zidx order

/-- One zone step of `__compact_pgdat` (source lines 742-769): reset the
per-zone parts of the shared control block, run the zone (honouring the
deferral predicate unless `order == -1`), then update
`compact_order_failed` / the deferral counter from the watermark
outcome. -/
def compact_pgdat_zone (zone : Zone) (order : Int) (sync : Bool)
    (deferred : Nat → Int → Bool) (zidx : Nat) (env : ZoneRunEnv)
    (extfrag_threshold : Int) (fuel : Nat) : Option Zone :=
  if !zone.populated then some zone
  else
    let cc : CompactControl := {
      nr_freepages := 0
      nr_migratepages := 0
      freepages := []
      migratepages := []
      order := order
      migratetype := 0
      zone_id := zone.zone_id
      sync := sync
      migrate_pfn := 0
      free_pfn := 0
      contended := none
      page := none }
    let run : Option Unit :=
      if order = -1 ∨ ¬ compaction_deferred_oracle deferred zidx order then
        match compact_zone zone cc env extfrag_threshold fuel with
        | none => none
        | some _ => some ()
      else some ()
    match run with
    | none => none
    | some _ =>
      if 0 < order then
        let ok := zone.watermark_ok order.toNat zone.low_wmark
        if ok ∧ zone.compact_order_failed ≤ order then
          some { zone with compact_order_failed := order + 1 }
        else if ¬ ok ∧ sync then
          some { zone with defer_count := zone.defer_count + 1 }
        else some zone
      else some zone

/-- The zone loop of `__compact_pgdat` (zoneids `0 ..< MAX_NR_ZONES`,
modelled by the node's zone list). -/
def compact_pgdat_loop (order : Int) (sync : Bool)
    (deferred : Nat → Int → Bool) (envs : Nat → ZoneRunEnv)
    (extfrag_threshold : Int) (fuel : Nat) :
    List Zone → Nat → Option (List Zone)
  | [], _ => some []
  | zone :: zs, zidx =>
    match compact_pgdat_zone zone order sync deferred zidx (envs zidx)
        extfrag_threshold fuel with
    | none => none
    | some zone' =>
      match compact_pgdat_loop order sync deferred envs extfrag_threshold
          fuel zs (zidx + 1) with
      | none => none
      | some zs' => some (zone' :: zs')

/-- Model of `__compact_pgdat` (source lines 737-772): always returns 0, together
with the updated zones of the node. -/
def compact_pgdat_all (zones : List Zone) (order : Int) (sync : Bool)
    (deferred : Nat → Int → Bool) (envs : Nat → ZoneRunEnv)
    (extfrag_threshold : Int) (fuel : Nat) : Option (Nat × List Zone) :=
  match compact_pgdat_loop order sync deferred envs extfrag_threshold fuel
      zones 0 with
  | none => none
  | some zs' => some (0, zs')

/-- Model of `compact_pgdat` (source lines 774-783): async, no capture slot. -/
def compact_pgdat (zones : List Zone) (order : Int)
    (deferred : Nat → Int → Bool) (envs : Nat → ZoneRunEnv)
    (extfrag_threshold : Int) (fuel : Nat) : Option (Nat × List Zone) :=
  compact_pgdat_all zones order false deferred envs extfrag_threshold fuel

/-- Model of `compact_node` (source lines 785-794): greedy mode (`order = -1`). -/
def compact_node (zones : List Zone) (sync : Bool)
    (deferred : Nat → Int → Bool) (envs : Nat → ZoneRunEnv)
    (extfrag_threshold : Int) (fuel : Nat) : Option (Nat × List Zone) :=
  compact_pgdat_all zones (-1) sync deferred envs extfrag_threshold fuel

/-- The `for_each_online_node` loop of `compact_nodes` (source lines
803-804). -/
def compact_nodes_go (sync : Bool) (deferred : Nat → Int → Bool)
    (envs : Nat → Nat → ZoneRunEnv) (extfrag_threshold : Int) (fuel : Nat) :
    List (List Zone) → Nat → Option (List (List Zone))
  | [], _ => some []
  | zs :: rest, nid =>
    match compact_node zs sync deferred (envs nid) extfrag_threshold fuel with
    | none => none
    | some (_, zs') =>
      match compact_nodes_go sync deferred envs extfrag_threshold fuel rest
          (nid + 1) with
      | none => none
      | some rest' => some (zs' :: rest')

/-- Model of `compact_nodes` (source lines 796-807): compact every online node and
return `COMPACT_COMPLETE` unconditionally (the per-node results are
discarded). -/
def compact_nodes (nodes : List (List Zone)) (sync : Bool)
    (deferred : Nat → Int → Bool) (envs : Nat → Nat → ZoneRunEnv)
    (extfrag_threshold : Int) (fuel : Nat) : Option (Nat × List (List Zone)) :=
  match compact_nodes_go sync deferred envs extfrag_threshold fuel nodes 0 with
  | none => none
  | some nodes' => some (COMPACT_COMPLETE, nodes')

/-- Model of `sysctl_compaction_handler` (source lines 812-819): a write triggers
synchronous compaction of all nodes and reports its result; a read does
nothing and returns 0. -/
def sysctl_compaction_handler (write : Bool) (nodes : List (List Zone))
    (deferred : Nat → Int → Bool) (envs : Nat → Nat → ZoneRunEnv)
    (extfrag_threshold : Int) (fuel : Nat) : Option Nat :=
  if write then
    match compact_nodes nodes true deferred envs extfrag_threshold fuel with
    | none => none
    | some (rc, _) => some rc
  else some 0

/-! ## Concrete instances used to evaluate the model -/

/-- An uninteresting valid page: in no list, not a buddy, not huge. -/
def pageDefault : Page := {
  pfn_valid := true
  valid_within := true
  zone_id := 0
  is_buddy := false
  buddy_order := 0
  split_result := 0
  migratetype := MIGRATE_MOVABLE
  is_lru := false
  trans_huge := false
  compound_order := 0
  isolate_fails := fun _ => true
  is_file_cache := false }

/-- A buddy page whose `split_free_page` yields two order-0 pages. -/
def pageBuddy2 : Page := { pageDefault with is_buddy := true, split_result := 2 }

def freeAreaEmpty : FreeArea := { free_list := fun _ => [], nr_free := 0 }

def ctrsZero : ZoneCtrs := {
  nr_inactive_file := 0
  nr_inactive_anon := 0
  nr_active_file := 0
  nr_active_anon := 0
  nr_isolated_file := 0
  nr_isolated_anon := 0 }

/-- Counters with many isolated pages and an empty LRU: backpressure. -/
def ctrsHigh : ZoneCtrs := { ctrsZero with nr_isolated_file := 10 }

def lockObsCalm : LockObs := { contended := false, fatal := false }

def lockObsContended : LockObs := { contended := true, fatal := false }

/-- A quiet scanner environment: valid uninteresting pages, no lock
contention, no backpressure. -/
def migEnvCalm : MigEnv := {
  mem := fun _ => pageDefault
  lock_obs := fun _ => lockObsCalm
  bp_ctrs := fun _ => ctrsZero
  bp_fatal := fun _ => false
  bp_fuel := 1 }

/-- A scanner environment whose LRU lock is contended at every check. -/
def migEnvContended : MigEnv := { migEnvCalm with
  lock_obs := fun _ => lockObsContended }

/-- A scanner environment under backpressure (`too_many_isolated`). -/
def migEnvBackpressure : MigEnv := { migEnvCalm with
  bp_ctrs := fun _ => ctrsHigh }

def captureEnvCalm : CaptureEnv := {
  trylock := fun _ _ => lockObsCalm
  capture_ok := fun _ _ => false }

/-- Backpressure plus a fatal signal pending at every wait. -/
def migEnvBPFatal : MigEnv := { migEnvBackpressure with
  bp_fatal := fun _ => true }

/-- A zone whose watermark oracle passes exactly at its low watermark (0):
`compaction_suitable` short-circuits with SKIPPED, while the entry-point's
early-break check succeeds. -/
def zoneSkip : Zone := {
  zone_start_pfn := 0
  spanned_pages := 4096
  low_wmark := 0
  free_area := fun _ => { free_list := fun _ => [], nr_free := 0 }
  watermark_ok := fun _ mark => decide (mark = 0)
  fragindex := fun _ => -1
  populated := true
  compact_order_failed := 0
  defer_count := 0
  zone_id := 0 }

/-- A zone whose only free page sits at order 4 on the MOVABLE list, and
whose watermarks always pass. -/
def zoneA : Zone := {
  zone_start_pfn := 0
  spanned_pages := 4096
  low_wmark := 0
  free_area := fun ord =>
    if ord = 4 then
      { free_list := fun mt => if mt = MIGRATE_MOVABLE then [42] else []
        nr_free := 1 }
    else freeAreaEmpty
  watermark_ok := fun _ _ => true
  fragindex := fun _ => -1
  populated := true
  compact_order_failed := 0
  defer_count := 0
  zone_id := 0 }

/-- A direct compactor asking for order 3 MOVABLE with no capture slot. -/
def ccA : CompactControl := {
  nr_freepages := 0
  nr_migratepages := 0
  freepages := []
  migratepages := []
  order := 3
  migratetype := MIGRATE_MOVABLE
  zone_id := 0
  sync := true
  migrate_pfn := 0
  free_pfn := 10
  contended := none
  page := none }

/-- A zone starting at an unaligned PFN. -/
def zoneB : Zone := { zoneA with
  zone_start_pfn := 100
  spanned_pages := 3000
  free_area := fun _ => freeAreaEmpty }

/-- A mid-run cursor state in `zoneB`: the free cursor was left at
`migrate_pfn + pageblock_nr_pages` (what an exhausted free-page sweep
returns), so the invariant `migrate_pfn ≤ free_pfn` holds on entry. -/
def ccB : CompactControl := { ccA with
  order := -1
  migrate_pfn := 100
  free_pfn := 1124 }

/-- An everywhere-empty zone starting at PFN 0. -/
def zoneC : Zone := { zoneA with
  free_area := fun _ => freeAreaEmpty }

/-- An async run whose migrate cursor sits at PFN 5, with a contention
back-reference supplied. -/
def ccC : CompactControl := { ccA with
  order := -1
  sync := false
  migrate_pfn := 5
  free_pfn := 4096
  contended := some false }

/-- A trivial (zero-span) populated zone: a run completes immediately. -/
def zoneD : Zone := { zoneC with spanned_pages := 0 }

/-- A fresh greedy-mode control block as built by `__compact_pgdat`. -/
def ccD : CompactControl := {
  nr_freepages := 0
  nr_migratepages := 0
  freepages := []
  migratepages := []
  order := -1
  migratetype := 0
  zone_id := 0
  sync := true
  migrate_pfn := 0
  free_pfn := 0
  contended := none
  page := none }

/-- A quiet zone-run environment whose migration engine always errs with
a non-ENOMEM code and keeps nothing on the lists. -/
def envD : ZoneRunEnv := {
  finished_fatal := fun _ => false
  mig := fun _ => migEnvCalm
  migrate := fun _ _ =>
    { err := 1, remaining := [], freepages := [], nr_freepages := 0
      free_pfn := 0 }
  capture := fun _ => captureEnvCalm }

/-! ## Theorems -/

/-- C1: the free-area scan of `compact_finished` is claimed to check, for
every order from `cc.order` up to `MAX_ORDER`, the free list of the
caller's migrate type *at that order* (and `nr_free` at that order once
the order reaches `pageblock_order`).  The code instead reads
`zone->free_area[cc->order]` and compares `cc->order` at every iteration:
in `zoneA` the only free page sits at order 4 on the MOVABLE list while
`cc.order = 3`, the watermark passes and no capture slot exists, yet
`compact_finished` answers CONTINUE where the claimed (and spec-§4.G.5)
scan answers PARTIAL. -/
theorem claim_C1_code_bug :
    compact_finished zoneA ccA false = COMPACT_CONTINUE ∧
    compact_finished_scan_spec zoneA ccA = true ∧
    (zoneA.free_area 4).free_list ccA.migratetype = [42] ∧
    (zoneA.free_area ccA.order.toNat).free_list ccA.migratetype = [] ∧
    zoneA.watermark_ok ccA.order.toNat (zoneA.low_wmark + 2 ^ 3) = true ∧
    ccA.page = none ∧ ccA.order = 3 ∧ ccA.migrate_pfn < ccA.free_pfn := by
  refine ⟨?_, ?_, ?_, ?_, rfl, rfl, rfl, by decide⟩
  · rfl
  · rfl
  · rfl
  · rfl

/-- C10: `compact_nodes` returns `COMPACT_COMPLETE` regardless of every
per-node and per-zone outcome, and the sysctl compaction handler reports
exactly that value on a write. -/
theorem claim_C10_complete :
    (∀ nodes sync deferred envs extfrag fuel r nodes',
      compact_nodes nodes sync deferred envs extfrag fuel =
        some (r, nodes') → r = COMPACT_COMPLETE) ∧
    (∀ nodes deferred envs extfrag fuel rc,
      sysctl_compaction_handler true nodes deferred envs extfrag fuel =
        some rc → rc = COMPACT_COMPLETE) := by
  constructor
  · intro nodes sync deferred envs extfrag fuel r nodes' h
    unfold compact_nodes at h
    cases hg : compact_nodes_go sync deferred envs extfrag fuel nodes 0 with
    | none => rw [hg] at h; exact absurd h (by simp)
    | some nodes0 => rw [hg] at h; simp at h; exact h.1.symm
  · intro nodes deferred envs extfrag fuel rc h
    unfold sysctl_compaction_handler at h
    simp only [if_pos] at h
    cases hg : compact_nodes nodes true deferred envs extfrag fuel with
    | none => rw [hg] at h; exact absurd h (by simp)
    | some p =>
      rw [hg] at h
      simp at h
      cases p with
      | mk rc0 nodes0 =>
        have : rc0 = COMPACT_COMPLETE := by
          unfold compact_nodes at hg
          cases hg2 : compact_nodes_go true deferred envs extfrag fuel nodes 0 with
          | none => rw [hg2] at hg; exact absurd hg (by simp)
          | some ns => rw [hg2] at hg; simp at hg; exact hg.1.symm
        simp at h
        omega

/-- C2, counterexample: from a state satisfying the claimed invariant
(`migrate_pfn = 100 ≤ free_pfn = 1124`), the `ISOLATE_NONE` path of
`isolate_migratepages` sets `migrate_pfn` to the pageblock-aligned
`end_pfn = 2048`, strictly above `free_pfn` — the claim says no step ever
does that. -/
theorem claim_C2_counterexample :
    ccB.migrate_pfn ≤ ccB.free_pfn ∧
    (isolate_migratepages zoneB ccB migEnvCalm).map
        (fun r => (r.1, r.2.migrate_pfn)) =
      some (isolate_migrate_t.ISOLATE_NONE, 2048) ∧
    ccB.free_pfn < 2048 := by
  exact ⟨by decide, rfl, by decide⟩

/-- C2, amended: the `ISOLATE_NONE` step may push `migrate_pfn` past
`free_pfn`, but only to the pageblock-aligned end of the current block,
which stays below `free_pfn + 2 * pageblock_nr_pages`; `free_pfn` is
untouched, and once `free_pfn ≤ migrate_pfn` the termination predicate
(absent a fatal signal) immediately returns COMPLETE, ending the run. -/
theorem claim_C2_amended (zone : Zone) (cc : CompactControl) (env : MigEnv)
    (cc' : CompactControl)
    (h1 : zone.zone_start_pfn ≤ cc.free_pfn)
    (h2 : cc.migrate_pfn ≤ cc.free_pfn)
    (h3 : isolate_migratepages zone cc env =
      some (isolate_migrate_t.ISOLATE_NONE, cc')) :
    cc'.migrate_pfn =
      ALIGN (max cc.migrate_pfn zone.zone_start_pfn + pageblock_nr_pages)
        pageblock_nr_pages ∧
    cc'.migrate_pfn < cc.free_pfn + 2 * pageblock_nr_pages ∧
    cc'.free_pfn = cc.free_pfn ∧
    (cc.free_pfn ≤ cc'.migrate_pfn →
      compact_finished zone cc' false = COMPACT_COMPLETE) := by
  unfold isolate_migratepages at h3
  dsimp only [] at h3
  split at h3
  case isTrue hc =>
    have hcc : cc' = { cc with migrate_pfn := ALIGN (max cc.migrate_pfn zone.zone_start_pfn + pageblock_nr_pages) pageblock_nr_pages } := by
      injection h3 with h3'
      injection h3' with _ h3''
      exact h3''.symm
    subst hcc
    have hmax : max cc.migrate_pfn zone.zone_start_pfn ≤ cc.free_pfn :=
      max_le h2 h1
    refine ⟨rfl, ?_, rfl, ?_⟩
    · simp only [ALIGN, pageblock_nr_pages, pageblock_order]
      simp only [ALIGN, pageblock_nr_pages, pageblock_order] at hmax
      omega
    · intro hle
      unfold compact_finished
      simp only [if_neg (by simp : ¬ False)]
      simp only [Bool.false_eq_true, if_false]
      rw [if_pos hle]
  case isFalse hc =>
    cases hr : isolate_migratepages_range zone cc env
        (max cc.migrate_pfn zone.zone_start_pfn)
        (ALIGN (max cc.migrate_pfn zone.zone_start_pfn + pageblock_nr_pages)
          pageblock_nr_pages) with
    | none => rw [hr] at h3; exact absurd h3 (by simp)
    | some p =>
      obtain ⟨r, cc2⟩ := p
      rw [hr] at h3
      dsimp only [] at h3
      by_cases hz : r = 0
      · rw [if_pos hz] at h3
        simp at h3
      · rw [if_neg hz] at h3
        simp at h3

/-- Witness for C2's amended theorem at the counterexample input. -/
theorem claim_C2_amended_witness :
    ({ ccB with migrate_pfn := 2048 } : CompactControl).migrate_pfn =
      ALIGN (max ccB.migrate_pfn zoneB.zone_start_pfn + pageblock_nr_pages)
        pageblock_nr_pages ∧
    ({ ccB with migrate_pfn := 2048 } : CompactControl).migrate_pfn <
      ccB.free_pfn + 2 * pageblock_nr_pages ∧
    ({ ccB with migrate_pfn := 2048 } : CompactControl).free_pfn =
      ccB.free_pfn ∧
    (ccB.free_pfn ≤ ({ ccB with migrate_pfn := 2048 } : CompactControl).migrate_pfn →
      compact_finished zoneB { ccB with migrate_pfn := 2048 } false =
        COMPACT_COMPLETE) :=
  claim_C2_amended zoneB ccB migEnvCalm { ccB with migrate_pfn := 2048 }
    (by decide) (by decide) rfl

/-- Helper: the migrate scan never moves its cursor backwards, and a scan
that returns 0 (possible only when it was entered at PFN 0 and aborted at
once) leaves the private lists and their cached sizes exactly as passed. -/
theorem scan_zero_preserves (zone : Zone) (env : MigEnv) (end_pfn : Nat) :
    ∀ (n low_pfn : Nat) (cc : CompactControl) (locked : Bool) (last mode : Nat)
      (r : Nat × CompactControl),
      end_pfn - low_pfn ≤ n →
      isolate_migratepages_scan zone env end_pfn low_pfn cc locked last mode = r →
      low_pfn ≤ r.1 ∧
      (r.1 = 0 →
        r.2.migratepages = cc.migratepages ∧
        r.2.nr_migratepages = cc.nr_migratepages ∧
        r.2.freepages = cc.freepages ∧
        r.2.nr_freepages = cc.nr_freepages) := by
  intro n
  induction n with
  | zero =>
    intro low_pfn cc locked last mode r hm hr
    rw [isolate_migratepages_scan, dif_neg (by omega)] at hr
    subst hr
    exact ⟨le_refl _, fun _ => ⟨rfl, rfl, rfl, rfl⟩⟩
  | succ n ih =>
    intro low_pfn cc locked last mode r hm hr
    by_cases hl : low_pfn < end_pfn
    · rw [isolate_migratepages_scan, dif_pos hl] at hr
      dsimp only [] at hr
      by_cases c1 : (!compact_checklock_irqsave (env.lock_obs low_pfn) cc.sync) = true
      · rw [if_pos c1] at hr
        subst hr
        exact ⟨le_refl _, fun _ => ⟨rfl, rfl, rfl, rfl⟩⟩
      · rw [if_neg c1] at hr
        by_cases c2 : (decide (low_pfn % MAX_ORDER_NR_PAGES = 0) && !(env.mem low_pfn).pfn_valid) = true
        · rw [if_pos c2] at hr
          have hmo : 0 < MAX_ORDER_NR_PAGES := by decide
          obtain ⟨ha, hb⟩ := ih _ _ _ _ _ r (by omega) hr
          exact ⟨by omega, hb⟩
        · rw [if_neg c2] at hr
          by_cases c3 : (!(env.mem low_pfn).valid_within) = true
          · rw [if_pos c3] at hr
            obtain ⟨ha, hb⟩ := ih _ _ _ _ _ r (by omega) hr
            exact ⟨by omega, hb⟩
          · rw [if_neg c3] at hr
            by_cases c4 : (env.mem low_pfn).zone_id ≠ zone.zone_id
            · rw [if_pos c4] at hr
              obtain ⟨ha, hb⟩ := ih _ _ _ _ _ r (by omega) hr
              exact ⟨by omega, hb⟩
            · rw [if_neg c4] at hr
              by_cases c5 : (env.mem low_pfn).is_buddy = true
              · rw [if_pos c5] at hr
                obtain ⟨ha, hb⟩ := ih _ _ _ _ _ r (by omega) hr
                exact ⟨by omega, hb⟩
              · rw [if_neg c5] at hr
                by_cases c6 : (!cc.sync && decide (last ≠ low_pfn >>> pageblock_order) && !migrate_async_suitable (env.mem low_pfn).migratetype) = true
                · rw [if_pos c6] at hr
                  have hal : low_pfn + 1 ≤ ALIGN (low_pfn + pageblock_nr_pages) pageblock_nr_pages := by
                    simp only [ALIGN, pageblock_nr_pages, pageblock_order]
                    omega
                  obtain ⟨ha, hb⟩ := ih _ _ _ _ _ r (by omega) hr
                  exact ⟨by omega, hb⟩
                · rw [if_neg c6] at hr
                  by_cases c7 : (!(env.mem low_pfn).is_lru) = true
                  · rw [if_pos c7] at hr
                    obtain ⟨ha, hb⟩ := ih _ _ _ _ _ r (by omega) hr
                    exact ⟨by omega, hb⟩
                  · rw [if_neg c7] at hr
                    by_cases c8 : (env.mem low_pfn).trans_huge = true
                    · rw [if_pos c8] at hr
                      have hpw : 0 < 2 ^ (env.mem low_pfn).compound_order := pow_pos (by norm_num) _
                      obtain ⟨ha, hb⟩ := ih _ _ _ _ _ r (by omega) hr
                      exact ⟨by omega, hb⟩
                    · rw [if_neg c8] at hr
                      by_cases c9 : (env.mem low_pfn).isolate_fails (if (!cc.sync) = true then mode ||| ISOLATE_ASYNC_MIGRATE else mode) = true
                      · rw [if_pos c9] at hr
                        obtain ⟨ha, hb⟩ := ih _ _ _ _ _ r (by omega) hr
                        exact ⟨by omega, hb⟩
                      · rw [if_neg c9] at hr
                        by_cases c10 : cc.nr_migratepages + 1 = COMPACT_CLUSTER_MAX
                        · rw [if_pos c10] at hr
                          subst hr
                          exact ⟨by omega, fun h0 => absurd h0 (by omega)⟩
                        · rw [if_neg c10] at hr
                          obtain ⟨ha, hb⟩ := ih _ _ _ _ _ r (by omega) hr
                          exact ⟨by omega, fun h0 => absurd h0 (by omega)⟩
    · rw [isolate_migratepages_scan, dif_neg hl] at hr
      subst hr
      exact ⟨le_refl _, fun _ => ⟨rfl, rfl, rfl, rfl⟩⟩

/-- Helper: a 0 return of `isolate_migratepages_range` leaves the private
lists and their cached sizes exactly as the caller passed them. -/
theorem range_zero_preserves (zone : Zone) (cc : CompactControl)
    (env : MigEnv) (low end_pfn : Nat) (cc2 : CompactControl)
    (h : isolate_migratepages_range zone cc env low end_pfn = some (0, cc2)) :
    cc2.migratepages = cc.migratepages ∧
    cc2.nr_migratepages = cc.nr_migratepages ∧
    cc2.freepages = cc.freepages ∧
    cc2.nr_freepages = cc.nr_freepages := by
  unfold isolate_migratepages_range at h
  cases hw : too_many_isolated_wait cc.sync env.bp_ctrs env.bp_fatal 0
      env.bp_fuel with
  | none => rw [hw] at h; exact absurd h (by simp)
  | some b =>
    rw [hw] at h
    cases b with
    | false =>
      simp only [Option.some.injEq, Prod.mk.injEq] at h
      rw [← h.2]
      exact ⟨rfl, rfl, rfl, rfl⟩
    | true =>
      simp only [Option.some.injEq] at h
      have hs := scan_zero_preserves zone env end_pfn (end_pfn - low) low cc
        true 0 0 (0, cc2) (le_refl _) h
      exact hs.2 rfl

/-- Helper: `compact_capture_loop` touches only the capture slot and the
contended flag. -/
theorem capture_loop_preserves (zone : Zone) (env : CaptureEnv) (sync : Bool) :
    ∀ (pairs : List (Nat × Nat)) (cc : CompactControl),
      (compact_capture_loop zone env sync pairs cc).migratepages =
        cc.migratepages ∧
      (compact_capture_loop zone env sync pairs cc).nr_migratepages =
        cc.nr_migratepages ∧
      (compact_capture_loop zone env sync pairs cc).freepages =
        cc.freepages ∧
      (compact_capture_loop zone env sync pairs cc).nr_freepages =
        cc.nr_freepages := by
  intro pairs
  induction pairs with
  | nil => intro cc; exact ⟨rfl, rfl, rfl, rfl⟩
  | cons p rest ih =>
    intro cc
    obtain ⟨mtype, ord⟩ := p
    rw [compact_capture_loop]
    by_cases h1 : ((zone.free_area ord).free_list mtype).isEmpty = true
    · rw [if_pos h1]
      exact ih cc
    · rw [if_neg h1]
      dsimp only []
      by_cases h2 : (!compact_checklock_irqsave (env.trylock mtype ord) sync)
          = true
      · rw [if_pos h2]
        exact ⟨rfl, rfl, rfl, rfl⟩
      · rw [if_neg h2]
        by_cases h3 : env.capture_ok mtype ord = true
        · rw [if_pos h3]
          exact ⟨rfl, rfl, rfl, rfl⟩
        · rw [if_neg h3]
          exact ih _

/-- Helper: `compact_capture_page` touches only the capture slot and the
contended flag. -/
theorem capture_page_preserves (zone : Zone) (cc : CompactControl)
    (env : CaptureEnv) :
    (compact_capture_page zone cc env).migratepages = cc.migratepages ∧
    (compact_capture_page zone cc env).nr_migratepages =
      cc.nr_migratepages ∧
    (compact_capture_page zone cc env).freepages = cc.freepages ∧
    (compact_capture_page zone cc env).nr_freepages = cc.nr_freepages := by
  unfold compact_capture_page
  cases hp : cc.page with
  | none => exact ⟨rfl, rfl, rfl, rfl⟩
  | some b =>
    cases b with
    | true => exact ⟨rfl, rfl, rfl, rfl⟩
    | false => exact capture_loop_preserves zone env cc.sync _ cc

/-- Helper: an `ISOLATE_NONE` return of `isolate_migratepages` only moves
the migrate cursor. -/
theorem isolate_none_preserves (zone : Zone) (cc : CompactControl)
    (env : MigEnv) (cc2 : CompactControl)
    (h : isolate_migratepages zone cc env =
      some (isolate_migrate_t.ISOLATE_NONE, cc2)) :
    cc2.migratepages = cc.migratepages ∧
    cc2.nr_migratepages = cc.nr_migratepages ∧
    cc2.freepages = cc.freepages ∧
    cc2.nr_freepages = cc.nr_freepages := by
  unfold isolate_migratepages at h
  dsimp only [] at h
  split at h
  · simp only [Option.some.injEq, Prod.mk.injEq] at h
    rw [← h.2]
    exact ⟨rfl, rfl, rfl, rfl⟩
  · cases hr : isolate_migratepages_range zone cc env
        (max cc.migrate_pfn zone.zone_start_pfn)
        (ALIGN (max cc.migrate_pfn zone.zone_start_pfn + pageblock_nr_pages)
          pageblock_nr_pages) with
    | none => rw [hr] at h; exact absurd h (by simp)
    | some p =>
      obtain ⟨rv, cc3⟩ := p
      rw [hr] at h
      dsimp only [] at h
      by_cases hz : rv = 0
      · rw [if_pos hz] at h; simp at h
      · rw [if_neg hz] at h; simp at h

/-- Helper: an `ISOLATE_ABORT` return of `isolate_migratepages` leaves the
private lists and their cached sizes untouched. -/
theorem isolate_abort_preserves (zone : Zone) (cc : CompactControl)
    (env : MigEnv) (cc2 : CompactControl)
    (h : isolate_migratepages zone cc env =
      some (isolate_migrate_t.ISOLATE_ABORT, cc2)) :
    cc2.migratepages = cc.migratepages ∧
    cc2.nr_migratepages = cc.nr_migratepages ∧
    cc2.freepages = cc.freepages ∧
    cc2.nr_freepages = cc.nr_freepages := by
  unfold isolate_migratepages at h
  dsimp only [] at h
  split at h
  · simp at h
  · cases hr : isolate_migratepages_range zone cc env
        (max cc.migrate_pfn zone.zone_start_pfn)
        (ALIGN (max cc.migrate_pfn zone.zone_start_pfn + pageblock_nr_pages)
          pageblock_nr_pages) with
    | none => rw [hr] at h; exact absurd h (by simp)
    | some p =>
      obtain ⟨rv, cc3⟩ := p
      rw [hr] at h
      dsimp only [] at h
      by_cases hz : rv = 0
      · rw [if_pos hz] at h
        simp only [Option.some.injEq, Prod.mk.injEq] at h
        subst hz
        rw [← h.2]
        exact range_zero_preserves zone cc env _ _ cc3 hr
      · rw [if_neg hz] at h; simp at h

/-- Helper: after the migration epilogue the migrate list is empty (its
cached size 0) and the freelist's cached size is exact, granted the
engine's contract that error 0 means everything migrated. -/
theorem migration_epilogue_invariant (m : MigrateOut) (cc : CompactControl)
    (hc : m.err = 0 → m.remaining = []) :
    (migration_epilogue m cc).migratepages = [] ∧
    (migration_epilogue m cc).nr_migratepages = 0 ∧
    (migration_epilogue m cc).nr_freepages =
      (migration_epilogue m cc).freepages.length := by
  unfold migration_epilogue
  dsimp only [update_nr_listpages]
  by_cases he : m.err ≠ 0
  · rw [if_pos he]
    exact ⟨rfl, rfl, rfl⟩
  · rw [if_neg he]
    push_neg at he
    rw [hc he]
    exact ⟨rfl, rfl, rfl⟩

/-- C3, counterexample: an async scan whose LRU lock is contended at the
first checked PFN (5) aborts through `compact_checklock_irqsave`, yet
`isolate_migratepages_range` returns 5 — not 0 — (recording the
contention in the back-reference), and its caller
`isolate_migratepages` classifies the aborted scan as `ISOLATE_SUCCESS`
with `migrate_pfn = 5`.  The claim says every lock-arbitration abort
returns 0 and is mapped to `ISOLATE_ABORT`. -/
theorem claim_C3_counterexample :
    compact_checklock_irqsave (migEnvContended.lock_obs 5) ccC.sync = false ∧
    (isolate_migratepages_range zoneC ccC migEnvContended 5 2048).map
        (fun r => (r.1, r.2.contended)) = some (5, some true) ∧
    (isolate_migratepages zoneC ccC migEnvContended).map
        (fun r => (r.1, r.2.migrate_pfn)) =
      some (isolate_migrate_t.ISOLATE_SUCCESS, 5) := by
  refine ⟨rfl, ?_, ?_⟩
  · simp [isolate_migratepages_range, too_many_isolated_wait, too_many_isolated,
      isolate_migratepages_scan, migEnvContended, migEnvCalm, ccC, ccA, zoneC,
      zoneA, compact_checklock_irqsave, checklock_contended_update,
      lockObsContended, ctrsZero, SWAP_CLUSTER_MAX]
  · simp [isolate_migratepages, isolate_migratepages_range,
      too_many_isolated_wait, too_many_isolated, isolate_migratepages_scan,
      migEnvContended, migEnvCalm, ccC, ccA, zoneC, zoneA, pageDefault,
      compact_checklock_irqsave, checklock_contended_update, lockObsContended,
      ctrsZero, SWAP_CLUSTER_MAX, ALIGN, pageblock_nr_pages, pageblock_order]

/-- C3, amended: the 0-return ("abort") of `isolate_migratepages_range`
comes only from the backpressure gate (an async caller seeing
`too_many_isolated`, or a fatal signal during the sync wait), and the
caller maps it to `ISOLATE_ABORT`; a lock-arbitration abort inside the
scan instead breaks the loop and returns the current scan PFN, which the
caller treats as `ISOLATE_SUCCESS` whenever that PFN is nonzero. -/
theorem claim_C3_amended :
    (∀ (zone : Zone) (env : MigEnv) (end_pfn low_pfn : Nat)
        (cc : CompactControl) (locked : Bool) (last mode : Nat),
      low_pfn < end_pfn →
      compact_checklock_irqsave (env.lock_obs low_pfn) cc.sync = false →
      (isolate_migratepages_scan zone env end_pfn low_pfn cc locked last
        mode).1 = low_pfn) ∧
    (∀ (zone : Zone) (cc : CompactControl) (env : MigEnv) (low end_pfn : Nat),
      too_many_isolated_wait cc.sync env.bp_ctrs env.bp_fatal 0 env.bp_fuel =
        some false →
      isolate_migratepages_range zone cc env low end_pfn = some (0, cc)) ∧
    (∀ (zone : Zone) (cc : CompactControl) (env : MigEnv)
        (cc2 : CompactControl),
      ALIGN (max cc.migrate_pfn zone.zone_start_pfn + pageblock_nr_pages)
        pageblock_nr_pages ≤ cc.free_pfn →
      (env.mem (max cc.migrate_pfn zone.zone_start_pfn)).pfn_valid = true →
      isolate_migratepages_range zone cc env
        (max cc.migrate_pfn zone.zone_start_pfn)
        (ALIGN (max cc.migrate_pfn zone.zone_start_pfn + pageblock_nr_pages)
          pageblock_nr_pages) = some (0, cc2) →
      isolate_migratepages zone cc env =
        some (isolate_migrate_t.ISOLATE_ABORT, cc2)) := by
  refine ⟨?_, ?_, ?_⟩
  · intro zone env end_pfn low_pfn cc locked last mode h1 h2
    rw [isolate_migratepages_scan]
    rw [dif_pos h1]
    dsimp only []
    rw [h2]
    simp
  · intro zone cc env low end_pfn h
    unfold isolate_migratepages_range
    rw [h]
  · intro zone cc env cc2 h1 h2 h3
    unfold isolate_migratepages
    dsimp only []
    rw [if_neg (by simp [h2]; omega)]
    rw [h3]
    rfl

/-- Witness for C3's amended theorem at concrete inputs: a contended
async scan returns its entry PFN 5; a backpressured async call returns 0;
the caller maps that 0 to `ISOLATE_ABORT`. -/
theorem claim_C3_amended_witness :
    (isolate_migratepages_scan zoneC migEnvContended 2048 5 ccC true 0 0).1
      = 5 ∧
    isolate_migratepages_range zoneC ccC migEnvBackpressure 5 2048 =
      some (0, ccC) ∧
    isolate_migratepages zoneC ccC migEnvBackpressure =
      some (isolate_migrate_t.ISOLATE_ABORT, ccC) := by
  refine ⟨?_, ?_, ?_⟩
  · exact claim_C3_amended.1 zoneC migEnvContended 2048 5 ccC true 0 0
      (by decide) rfl
  · exact claim_C3_amended.2.1 zoneC ccC migEnvBackpressure 5 2048 rfl
  · exact claim_C3_amended.2.2 zoneC ccC migEnvBackpressure ccC
      (by decide) rfl rfl

/-- Helper: the main-loop invariant of `compact_zone`: entered with an
empty migratelist (cached size 0) and a freelist whose cached size is
exact, every terminating exit leaves both lists empty with both cached
sizes 0. -/
theorem compact_zone_loop_post (zone : Zone) (env : ZoneRunEnv)
    (hmig : ∀ i l, (env.migrate i l).err = 0 → (env.migrate i l).remaining = []) :
    ∀ (fuel i : Nat) (cc : CompactControl) (ret : Nat) (cc' : CompactControl),
      cc.migratepages = [] → cc.nr_migratepages = 0 →
      cc.nr_freepages = cc.freepages.length →
      compact_zone_loop zone env fuel i cc = some (ret, cc') →
      cc'.freepages = [] ∧ cc'.nr_freepages = 0 ∧
      cc'.migratepages = [] ∧ cc'.nr_migratepages = 0 := by
  intro fuel
  induction fuel with
  | zero =>
    intro i cc ret cc' _ _ _ h
    exact absurd h (by simp [compact_zone_loop])
  | succ fuel ih =>
    intro i cc ret cc' hml hmn hfl h
    rw [compact_zone_loop] at h
    dsimp only [] at h
    by_cases hret : compact_finished zone cc (env.finished_fatal i) ≠
        COMPACT_CONTINUE
    · rw [if_pos hret] at h
      simp only [compact_zone_out, release_freepages, Option.some.injEq,
        Prod.mk.injEq] at h
      rw [← h.2]
      exact ⟨rfl, by dsimp only []; omega, by dsimp only []; rw [hml],
        by dsimp only []; rw [hmn]⟩
    · rw [if_neg hret] at h
      cases him : isolate_migratepages zone cc (env.mig i) with
      | none => rw [him] at h; exact absurd h (by simp)
      | some p =>
        obtain ⟨res, cc2⟩ := p
        rw [him] at h
        cases res with
        | ISOLATE_ABORT =>
          dsimp only [] at h
          obtain ⟨p1, p2, p3, p4⟩ := isolate_abort_preserves zone cc
            (env.mig i) cc2 him
          simp only [compact_zone_out, release_freepages, Option.some.injEq,
            Prod.mk.injEq] at h
          rw [← h.2]
          refine ⟨rfl, ?_, ?_, ?_⟩
          · dsimp only []
            rw [p4, p3, hfl]
            omega
          · dsimp only []
            rw [p1, hml]
          · dsimp only []
            rw [p2, hmn]
        | ISOLATE_NONE =>
          dsimp only [] at h
          obtain ⟨p1, p2, p3, p4⟩ := isolate_none_preserves zone cc
            (env.mig i) cc2 him
          exact ih (i + 1) cc2 ret cc' (p1.trans hml) (p2.trans hmn)
            (by rw [p4, p3, hfl]) h
        | ISOLATE_SUCCESS =>
          dsimp only [] at h
          obtain ⟨q1, q2, q3⟩ := migration_epilogue_invariant
            (env.migrate i cc2.migratepages) cc2 (hmig i cc2.migratepages)
          by_cases hen : (env.migrate i cc2.migratepages).err ≠ 0 ∧
              (env.migrate i cc2.migratepages).err = ENOMEM_err
          · rw [if_pos hen] at h
            simp only [compact_zone_out, release_freepages,
              Option.some.injEq, Prod.mk.injEq] at h
            rw [← h.2]
            refine ⟨rfl, ?_, ?_, ?_⟩
            · dsimp only []
              omega
            · dsimp only []
              rw [q1]
            · dsimp only []
              rw [q2]
          · rw [if_neg hen] at h
            obtain ⟨r1, r2, r3, r4⟩ := capture_page_preserves zone
              (migration_epilogue (env.migrate i cc2.migratepages) cc2)
              (env.capture i)
            exact ih (i + 1) _ ret cc' (r1.trans q1) (r2.trans q2)
              (by rw [r4, r3, q3]) h

/-- C4: on every terminating exit of a zone run (the suitability
short-circuits, COMPLETE, PARTIAL after an isolation abort, PARTIAL after
out-of-memory in migration, PARTIAL on a fatal signal), `compact_zone`
leaves both private lists empty and both cached sizes 0, given that the
run was entered with empty lists (as both callers construct it) and that
the external migration engine honours its contract (a 0 error return
means every page was migrated off the list). -/
theorem claim_C4_lists_empty (zone : Zone) (cc : CompactControl)
    (env : ZoneRunEnv) (extfrag : Int) (fuel : Nat) (ret : Nat)
    (cc' : CompactControl)
    (h1 : cc.freepages = []) (h2 : cc.migratepages = [])
    (h3 : cc.nr_freepages = 0) (h4 : cc.nr_migratepages = 0)
    (hmig : ∀ i l, (env.migrate i l).err = 0 → (env.migrate i l).remaining = [])
    (h : compact_zone zone cc env extfrag fuel = some (ret, cc')) :
    cc'.freepages = [] ∧ cc'.nr_freepages = 0 ∧
    cc'.migratepages = [] ∧ cc'.nr_migratepages = 0 := by
  unfold compact_zone at h
  dsimp only [] at h
  split at h
  · simp only [Option.some.injEq, Prod.mk.injEq] at h
    rw [← h.2]
    exact ⟨h1, h3, h2, h4⟩
  · refine compact_zone_loop_post zone env hmig fuel 0 _ ret cc' ?_ ?_ ?_ h
    · dsimp only []
      exact h2
    · dsimp only []
      exact h4
    · dsimp only []
      rw [h3, h1]
      rfl

/-- Witness for C4: a zero-span zone completes at the first loop check;
the resulting control block has both lists empty and both sizes 0. -/
theorem claim_C4_witness :
    ccD.freepages = [] ∧ ccD.nr_freepages = 0 ∧
    ccD.migratepages = [] ∧ ccD.nr_migratepages = 0 :=
  claim_C4_lists_empty zoneD ccD envD 500 1 COMPACT_COMPLETE ccD rfl rfl rfl
    rfl (fun _ _ _ => rfl) rfl

/-- Helper: in greedy mode a `__compact_pgdat` zone step returns the zone
unchanged (no deferral consultation, no `compact_order_failed` or
deferral-counter update). -/
theorem pgdat_zone_greedy_id (zone : Zone) (sync : Bool)
    (deferred : Nat → Int → Bool) (zidx : Nat) (env : ZoneRunEnv)
    (extfrag : Int) (fuel : Nat) (z' : Zone)
    (h : compact_pgdat_zone zone (-1) sync deferred zidx env extfrag fuel =
      some z') : z' = zone := by
  unfold compact_pgdat_zone at h
  by_cases hp : (!zone.populated) = true
  · rw [if_pos hp] at h
    simp at h
    exact h.symm
  · rw [if_neg hp] at h
    dsimp only [] at h
    rw [if_pos (Or.inl rfl)] at h
    cases hcz : compact_zone zone
        { nr_freepages := 0, nr_migratepages := 0, freepages := [],
          migratepages := [], order := -1, migratetype := 0,
          zone_id := zone.zone_id, sync := sync, migrate_pfn := 0,
          free_pfn := 0, contended := none, page := none } env extfrag fuel with
    | none =>
      rw [hcz] at h
      exact absurd h (by simp)
    | some p =>
      rw [hcz] at h
      dsimp only [] at h
      rw [if_neg (by norm_num : ¬ (0 : Int) < -1)] at h
      simp at h
      exact h.symm

/-- Helper: in greedy mode the `__compact_pgdat` zone loop returns the
zone list unchanged. -/
theorem pgdat_loop_greedy_id (sync : Bool) (deferred : Nat → Int → Bool)
    (envs : Nat → ZoneRunEnv) (extfrag : Int) (fuel : Nat) :
    ∀ (zs : List Zone) (zidx : Nat) (zs' : List Zone),
      compact_pgdat_loop (-1) sync deferred envs extfrag fuel zs zidx =
        some zs' → zs' = zs := by
  intro zs
  induction zs with
  | nil =>
    intro zidx zs' h
    simp [compact_pgdat_loop] at h
    exact h
  | cons z rest ih =>
    intro zidx zs' h
    rw [compact_pgdat_loop] at h
    cases hz : compact_pgdat_zone z (-1) sync deferred zidx (envs zidx)
        extfrag fuel with
    | none => rw [hz] at h; exact absurd h (by simp)
    | some z' =>
      rw [hz] at h
      cases hrest : compact_pgdat_loop (-1) sync deferred envs extfrag fuel
          rest (zidx + 1) with
      | none => rw [hrest] at h; exact absurd h (by simp)
      | some rest' =>
        rw [hrest] at h
        simp at h
        rw [← h, pgdat_zone_greedy_id z sync deferred zidx (envs zidx)
          extfrag fuel z' hz, ih (zidx + 1) rest' hrest]

/-- C5: greedy mode (`order = -1`) never stops on watermark feedback:
`compaction_suitable` answers CONTINUE, `compact_finished` (absent a
fatal signal) answers COMPLETE exactly when the cursors have met and
CONTINUE otherwise, and `compact_node` returns 0 with every zone — in
particular every `compact_order_failed` — unchanged. -/
theorem claim_C5_greedy :
    (∀ (zone : Zone) (extfrag : Int),
      compaction_suitable zone (-1) extfrag = COMPACT_CONTINUE) ∧
    (∀ (zone : Zone) (cc : CompactControl), cc.order = -1 →
      compact_finished zone cc false =
        (if cc.free_pfn ≤ cc.migrate_pfn then COMPACT_COMPLETE
         else COMPACT_CONTINUE)) ∧
    (∀ (zones : List Zone) (sync : Bool) (deferred : Nat → Int → Bool)
        (envs : Nat → ZoneRunEnv) (extfrag : Int) (fuel : Nat)
        (r : Nat) (zs' : List Zone),
      compact_node zones sync deferred envs extfrag fuel = some (r, zs') →
      r = 0 ∧ zs' = zones) := by
  refine ⟨fun zone extfrag => rfl, ?_, ?_⟩
  · intro zone cc h
    unfold compact_finished
    simp only [Bool.false_eq_true, if_false]
    by_cases hle : cc.free_pfn ≤ cc.migrate_pfn
    · rw [if_pos hle, if_pos hle]
    · rw [if_neg hle, if_neg hle, if_pos h]
  · intro zones sync deferred envs extfrag fuel r zs' h
    unfold compact_node compact_pgdat_all at h
    cases hl : compact_pgdat_loop (-1) sync deferred envs extfrag fuel
        zones 0 with
    | none => rw [hl] at h; exact absurd h (by simp)
    | some zs0 =>
      rw [hl] at h
      simp at h
      exact ⟨h.1.symm, h.2.symm.trans
        (pgdat_loop_greedy_id sync deferred envs extfrag fuel zones 0 zs0 hl)⟩

/-- Witness for C5 at a concrete greedy run over one trivial zone. -/
theorem claim_C5_witness :
    compaction_suitable zoneD (-1) 500 = COMPACT_CONTINUE ∧
    compact_finished zoneD ccD false =
      (if ccD.free_pfn ≤ ccD.migrate_pfn then COMPACT_COMPLETE
       else COMPACT_CONTINUE) ∧
    ((0 : Nat) = 0 ∧ [zoneD] = [zoneD]) :=
  ⟨claim_C5_greedy.1 zoneD 500, claim_C5_greedy.2.1 zoneD ccD rfl,
    claim_C5_greedy.2.2 [zoneD] true (fun _ _ => false) (fun _ => envD)
      500 1 0 [zoneD] rfl⟩

theorem addPagesFront_length (base count : Nat) (fl : List Nat) :
    (addPagesFront base count fl).length = count + fl.length := by
  simp [addPagesFront]

/-- Helper: in lax mode the block isolator's running total counts exactly
the pages appended to the private freelist. -/
theorem block_loop_lax_count (mem : Mem) (end_pfn : Nat) :
    ∀ (n blockpfn total : Nat) (fl : List Nat) (r : Nat × List Nat),
      end_pfn - blockpfn ≤ n →
      isolate_freepages_block_loop mem end_pfn false blockpfn total fl = r →
      total ≤ r.1 ∧ r.2.length = fl.length + (r.1 - total) := by
  intro n
  induction n with
  | zero =>
    intro blockpfn total fl r hm hr
    rw [isolate_freepages_block_loop, dif_neg (by omega)] at hr
    subst hr
    exact ⟨le_refl _, by simp⟩
  | succ n ih =>
    intro blockpfn total fl r hm hr
    by_cases hl : blockpfn < end_pfn
    · rw [isolate_freepages_block_loop, dif_pos hl] at hr
      dsimp only [] at hr
      by_cases c1 : (!(mem blockpfn).valid_within) = true
      · rw [if_pos c1] at hr
        exact ih _ _ _ r (by omega) hr
      · rw [if_neg c1] at hr
        by_cases c2 : (!(mem blockpfn).is_buddy) = true
        · rw [if_pos c2] at hr
          exact ih _ _ _ r (by omega) hr
        · rw [if_neg c2] at hr
          by_cases c3 : (mem blockpfn).split_result = 0
          · rw [dif_pos c3] at hr
            obtain ⟨ha, hb⟩ := ih _ _ _ r (by omega) hr
            rw [c3] at ha hb
            exact ⟨by omega, by simpa using hb⟩
          · rw [dif_neg c3] at hr
            obtain ⟨ha, hb⟩ := ih _ _ _ r (by omega) hr
            rw [addPagesFront_length] at hb
            exact ⟨by omega, by omega⟩
    · rw [isolate_freepages_block_loop, dif_neg hl] at hr
      subst hr
      exact ⟨le_refl _, by simp⟩

/-- Helper: in strict mode the block isolator either signals failure with
a 0 total (possibly retaining pages on the list) or counts exactly the
pages appended. -/
theorem block_loop_strict_count (mem : Mem) (end_pfn : Nat) :
    ∀ (n blockpfn total : Nat) (fl : List Nat) (r : Nat × List Nat),
      end_pfn - blockpfn ≤ n →
      isolate_freepages_block_loop mem end_pfn true blockpfn total fl = r →
      r.1 = 0 ∨ (total ≤ r.1 ∧ r.2.length = fl.length + (r.1 - total)) := by
  intro n
  induction n with
  | zero =>
    intro blockpfn total fl r hm hr
    rw [isolate_freepages_block_loop, dif_neg (by omega)] at hr
    subst hr
    exact Or.inr ⟨le_refl _, by simp⟩
  | succ n ih =>
    intro blockpfn total fl r hm hr
    by_cases hl : blockpfn < end_pfn
    · rw [isolate_freepages_block_loop, dif_pos hl] at hr
      dsimp only [] at hr
      by_cases c1 : (!(mem blockpfn).valid_within) = true
      · rw [if_pos c1] at hr
        subst hr
        exact Or.inl rfl
      · rw [if_neg c1] at hr
        by_cases c2 : (!(mem blockpfn).is_buddy) = true
        · rw [if_pos c2] at hr
          subst hr
          exact Or.inl rfl
        · rw [if_neg c2] at hr
          by_cases c3 : (mem blockpfn).split_result = 0
          · rw [dif_pos c3] at hr
            subst hr
            exact Or.inl rfl
          · rw [dif_neg c3] at hr
            rcases ih _ _ _ r (by omega) hr with h0 | ⟨ha, hb⟩
            · exact Or.inl h0
            · rw [addPagesFront_length] at hb
              exact Or.inr ⟨by omega, by omega⟩
    · rw [isolate_freepages_block_loop, dif_neg hl] at hr
      subst hr
      exact Or.inr ⟨le_refl _, by simp⟩

/-- C6: in strict mode, encountering an invalid PFN, a non-buddy page, or
a failed split makes `isolate_freepages_block` return 0; in lax mode those
pages are skipped, the return value counts exactly the order-0 pages
appended to the private freelist, and a successful split advances the
scan cursor past the pages just consumed. -/
theorem claim_C6_block_modes :
    (∀ (mem : Mem) (end_pfn blockpfn total : Nat) (fl : List Nat),
      blockpfn < end_pfn →
      ((mem blockpfn).valid_within = false ∨ (mem blockpfn).is_buddy = false ∨
        (mem blockpfn).split_result = 0) →
      (isolate_freepages_block_loop mem end_pfn true blockpfn total fl).1
        = 0) ∧
    (∀ (mem : Mem) (blockpfn end_pfn : Nat) (fl : List Nat),
      (isolate_freepages_block mem blockpfn end_pfn fl false).2.length =
        fl.length +
          (isolate_freepages_block mem blockpfn end_pfn fl false).1) ∧
    (∀ (mem : Mem) (end_pfn : Nat) (strict : Bool) (blockpfn total : Nat)
        (fl : List Nat),
      blockpfn < end_pfn →
      (mem blockpfn).valid_within = true →
      (mem blockpfn).is_buddy = true →
      (mem blockpfn).split_result ≠ 0 →
      isolate_freepages_block_loop mem end_pfn strict blockpfn total fl =
        isolate_freepages_block_loop mem end_pfn strict
          (blockpfn + (mem blockpfn).split_result)
          (total + (mem blockpfn).split_result)
          (addPagesFront blockpfn (mem blockpfn).split_result fl)) := by
  refine ⟨?_, ?_, ?_⟩
  · intro mem end_pfn blockpfn total fl hl hbad
    rw [isolate_freepages_block_loop, dif_pos hl]
    dsimp only []
    by_cases hv : (mem blockpfn).valid_within = false
    · rw [if_pos (by rw [hv]; rfl)]
      rfl
    · rw [if_neg (by simp at hv; simp [hv])]
      by_cases hb : (mem blockpfn).is_buddy = false
      · rw [if_pos (by rw [hb]; rfl)]
        rfl
      · rw [if_neg (by simp at hb; simp [hb])]
        have hs : (mem blockpfn).split_result = 0 := by
          simp only [Bool.not_eq_false] at hv hb
          rcases hbad with h | h | h
          · rw [hv] at h; cases h
          · rw [hb] at h; cases h
          · exact h
        rw [dif_pos hs]
        rfl
  · intro mem blockpfn end_pfn fl
    obtain ⟨ha, hb⟩ := block_loop_lax_count mem end_pfn (end_pfn - blockpfn)
      blockpfn 0 fl _ (le_refl _) rfl
    unfold isolate_freepages_block
    omega
  · intro mem end_pfn strict blockpfn total fl hl hv hb hs
    conv =>
      lhs
      rw [isolate_freepages_block_loop]
    rw [dif_pos hl]
    dsimp only []
    rw [if_neg (by rw [hv]; simp), if_neg (by rw [hb]; simp), dif_neg hs]

/-- Witness for C6 at concrete inputs: a strict scan hitting a non-buddy
page at its first PFN returns 0; the cursor-advance equation at a buddy
page that splits into two pages. -/
theorem claim_C6_witness :
    (isolate_freepages_block_loop (fun _ => pageDefault) 1 true 0 0 []).1
      = 0 ∧
    isolate_freepages_block_loop (fun _ => pageBuddy2) 4 false 0 0 [] =
      isolate_freepages_block_loop (fun _ => pageBuddy2) 4 false 2 2
        (addPagesFront 0 2 []) :=
  ⟨claim_C6_block_modes.1 (fun _ => pageDefault) 1 0 0 [] (by decide)
      (Or.inr (Or.inl rfl)),
    claim_C6_block_modes.2.2 (fun _ => pageBuddy2) 4 false 0 0 [] (by decide)
      rfl rfl (by decide)⟩

/-- Helper: the strict block-at-a-time range walk never moves backwards,
and when it reaches `end_pfn` its list has grown by exactly one page per
PFN consumed. -/
theorem range_loop_count (mem : Mem) (end_pfn : Nat) (zone : Option Nat) :
    ∀ (n pfn : Nat) (fl : List Nat) (r : Nat × List Nat),
      end_pfn - pfn ≤ n →
      isolate_freepages_range_loop mem end_pfn zone pfn fl = r →
      pfn ≤ r.1 ∧
      (r.1 < end_pfn ∨ r.2.length = fl.length + (r.1 - pfn)) := by
  intro n
  induction n with
  | zero =>
    intro pfn fl r hm hr
    rw [isolate_freepages_range_loop, dif_neg (by omega)] at hr
    subst hr
    exact ⟨le_refl _, Or.inr (by simp)⟩
  | succ n ih =>
    intro pfn fl r hm hr
    by_cases hl : pfn < end_pfn
    · rw [isolate_freepages_range_loop, dif_pos hl] at hr
      dsimp only [] at hr
      by_cases c1 : (!(mem pfn).pfn_valid || decide (zone ≠ some (mem pfn).zone_id)) = true
      · rw [if_pos c1] at hr
        subst hr
        exact ⟨le_refl _, Or.inl hl⟩
      · rw [if_neg c1] at hr
        by_cases c2 : (isolate_freepages_block mem pfn
            (min (ALIGN (pfn + 1) pageblock_nr_pages) end_pfn) fl true).1 = 0
        · rw [dif_pos c2] at hr
          subst hr
          exact ⟨le_refl _, Or.inl hl⟩
        · rw [dif_neg c2] at hr
          have hblk := block_loop_strict_count mem
            (min (ALIGN (pfn + 1) pageblock_nr_pages) end_pfn)
            (min (ALIGN (pfn + 1) pageblock_nr_pages) end_pfn - pfn) pfn 0 fl
            (isolate_freepages_block mem pfn
              (min (ALIGN (pfn + 1) pageblock_nr_pages) end_pfn) fl true)
            (le_refl _) rfl
          rcases hblk with h0 | ⟨hba, hbb⟩
          · exact absurd h0 c2
          · obtain ⟨ih1, ih2⟩ := ih _ _ r (by omega) hr
            refine ⟨by omega, ?_⟩
            rcases ih2 with h | h
            · exact Or.inl h
            · right
              rw [h, hbb]
              omega
    · rw [isolate_freepages_range_loop, dif_neg hl] at hr
      subst hr
      exact ⟨le_refl _, Or.inr (by simp)⟩

/-- C9: `isolate_freepages_range` is all-or-nothing: it either returns a
PFN at or past `end_pfn` with its retained list holding exactly one page
per PFN consumed from `start_pfn`, or it returns 0 having released every
page it had isolated (retaining nothing). -/
theorem claim_C9_all_or_nothing (mem : Mem) (start_pfn end_pfn : Nat) :
    isolate_freepages_range mem start_pfn end_pfn = (0, []) ∨
    (end_pfn ≤ (isolate_freepages_range mem start_pfn end_pfn).1 ∧
      (isolate_freepages_range mem start_pfn end_pfn).2.length =
        (isolate_freepages_range mem start_pfn end_pfn).1 - start_pfn) := by
  unfold isolate_freepages_range
  dsimp only []
  obtain ⟨h1, h2⟩ := range_loop_count mem end_pfn
    (if (mem start_pfn).pfn_valid = true then some (mem start_pfn).zone_id
      else none) (end_pfn - start_pfn) start_pfn [] _ (le_refl _) rfl
  by_cases hlt : (isolate_freepages_range_loop mem end_pfn
      (if (mem start_pfn).pfn_valid = true then some (mem start_pfn).zone_id
        else none) start_pfn []).1 < end_pfn
  · rw [if_pos hlt]
    exact Or.inl rfl
  · rw [if_neg hlt]
    right
    rcases h2 with h2 | h2
    · exact absurd h2 hlt
    · exact ⟨by omega, by simpa using h2⟩

/-- Helper: dropping one wait iteration shifts the observation streams. -/
theorem too_many_isolated_wait_shift (s : Bool) (ctrs : Nat → ZoneCtrs)
    (fatal : Nat → Bool) :
    ∀ (fuel i : Nat),
      too_many_isolated_wait s ctrs fatal (i + 1) fuel =
        too_many_isolated_wait s (fun j => ctrs (j + 1))
          (fun j => fatal (j + 1)) i fuel := by
  intro fuel
  induction fuel with
  | zero => intro i; rfl
  | succ fuel ih =>
    intro i
    rw [too_many_isolated_wait, too_many_isolated_wait]
    by_cases h : too_many_isolated (ctrs (i + 1)) = true
    · rw [if_pos h, if_pos h]
      by_cases hs : (!s) = true
      · rw [if_pos hs, if_pos hs]
      · rw [if_neg hs, if_neg hs]
        by_cases hf : fatal (i + 1) = true
        · rw [if_pos hf, if_pos hf]
        · rw [if_neg hf, if_neg hf]
          exact ih (i + 1)
    · rw [if_neg h, if_neg h]

/-- C7: `too_many_isolated` compares the zone's isolated count with half
the live LRU population, and while it holds the range isolator returns 0
for an async caller at once, and for a sync caller after a wait iteration
that sees a fatal signal; otherwise a sync caller waits and re-checks on
fresh observations. -/
theorem claim_C7_backpressure :
    (∀ c : ZoneCtrs, too_many_isolated c = true ↔
      c.nr_isolated_file + c.nr_isolated_anon >
        (c.nr_inactive_file + c.nr_inactive_anon +
          (c.nr_active_file + c.nr_active_anon)) / 2) ∧
    (∀ (zone : Zone) (cc : CompactControl) (env : MigEnv) (low end_pfn : Nat),
      cc.sync = false → 0 < env.bp_fuel →
      too_many_isolated (env.bp_ctrs 0) = true →
      isolate_migratepages_range zone cc env low end_pfn = some (0, cc)) ∧
    (∀ (zone : Zone) (cc : CompactControl) (env : MigEnv) (low end_pfn : Nat),
      cc.sync = true → 0 < env.bp_fuel →
      too_many_isolated (env.bp_ctrs 0) = true →
      env.bp_fatal 0 = true →
      isolate_migratepages_range zone cc env low end_pfn = some (0, cc)) ∧
    (∀ (ctrs : Nat → ZoneCtrs) (fatal : Nat → Bool) (fuel : Nat),
      too_many_isolated (ctrs 0) = true → fatal 0 = false →
      too_many_isolated_wait true ctrs fatal 0 (fuel + 1) =
        too_many_isolated_wait true (fun i => ctrs (i + 1))
          (fun i => fatal (i + 1)) 0 fuel) := by
  refine ⟨?_, ?_, ?_, ?_⟩
  · intro c
    simp only [too_many_isolated, decide_eq_true_eq]
  · intro zone cc env low end_pfn h1 h2 h3
    obtain ⟨f, hf⟩ : ∃ f, env.bp_fuel = f + 1 := ⟨env.bp_fuel - 1, by omega⟩
    unfold isolate_migratepages_range
    rw [hf, too_many_isolated_wait, if_pos h3, h1]
    rfl
  · intro zone cc env low end_pfn h1 h2 h3 h4
    obtain ⟨f, hf⟩ : ∃ f, env.bp_fuel = f + 1 := ⟨env.bp_fuel - 1, by omega⟩
    unfold isolate_migratepages_range
    rw [hf, too_many_isolated_wait, if_pos h3, h1, if_pos h4]
    rfl
  · intro ctrs fatal fuel h1 h2
    rw [too_many_isolated_wait, if_pos h1, if_neg (by simp), if_neg (by simp [h2])]
    exact too_many_isolated_wait_shift true ctrs fatal fuel 0

/-- Witness for C7: with 10 isolated pages against an empty LRU, an async
caller is refused at once, and a sync caller seeing a fatal signal after
its first wait is refused too. -/
theorem claim_C7_witness :
    (too_many_isolated ctrsHigh = true ↔
      ctrsHigh.nr_isolated_file + ctrsHigh.nr_isolated_anon >
        (ctrsHigh.nr_inactive_file + ctrsHigh.nr_inactive_anon +
          (ctrsHigh.nr_active_file + ctrsHigh.nr_active_anon)) / 2) ∧
    isolate_migratepages_range zoneC ccC migEnvBackpressure 0 0 =
      some (0, ccC) ∧
    isolate_migratepages_range zoneC ccA migEnvBPFatal 0 0 =
      some (0, ccA) :=
  ⟨claim_C7_backpressure.1 ctrsHigh,
    claim_C7_backpressure.2.1 zoneC ccC migEnvBackpressure 0 0 rfl
      (by decide) rfl,
    claim_C7_backpressure.2.2.1 zoneC ccA migEnvBPFatal 0 0 rfl (by decide)
      rfl rfl⟩

/-- C8: `try_to_compact_pages` short-circuits with SKIPPED when the order
is 0 or the GFP mask lacks `__GFP_FS` or `__GFP_IO`; otherwise its zone
loop folds the per-zone statuses with `max` (the result is never below the
running value) and stops after the first zone whose low watermark is
satisfied at the requested order. -/
theorem claim_C8_entry_point :
    (∀ (zones : List Zone) (order : Int) (gfp_mask : Nat) (sync : Bool)
        (contended page_slot : Option Bool) (envs : Nat → ZoneRunEnv)
        (extfrag : Int) (fuel : Nat),
      (order = 0 ∨ gfp_mask &&& GFP_FS_BIT = 0 ∨
        gfp_mask &&& GFP_IO_BIT = 0) →
      try_to_compact_pages zones order gfp_mask sync contended page_slot
        envs extfrag fuel = some COMPACT_SKIPPED) ∧
    (∀ (z : Zone) (zs : List Zone) (i rc : Nat) (order : Int)
        (gfp_mask : Nat) (sync : Bool) (contended page_slot : Option Bool)
        (envs : Nat → ZoneRunEnv) (extfrag : Int) (fuel : Nat)
        (status : Nat) (cc' : CompactControl),
      compact_zone_order z order gfp_mask sync contended page_slot (envs i)
        extfrag fuel = some (status, cc') →
      z.watermark_ok order.toNat z.low_wmark = true →
      try_to_compact_pages_loop order gfp_mask sync contended page_slot envs
        extfrag fuel (z :: zs) i rc = some (max status rc)) ∧
    (∀ (z : Zone) (zs : List Zone) (i rc : Nat) (order : Int)
        (gfp_mask : Nat) (sync : Bool) (contended page_slot : Option Bool)
        (envs : Nat → ZoneRunEnv) (extfrag : Int) (fuel : Nat)
        (status : Nat) (cc' : CompactControl),
      compact_zone_order z order gfp_mask sync contended page_slot (envs i)
        extfrag fuel = some (status, cc') →
      z.watermark_ok order.toNat z.low_wmark = false →
      try_to_compact_pages_loop order gfp_mask sync contended page_slot envs
        extfrag fuel (z :: zs) i rc =
        try_to_compact_pages_loop order gfp_mask sync contended page_slot
          envs extfrag fuel zs (i + 1) (max status rc)) ∧
    (∀ (order : Int) (gfp_mask : Nat) (sync : Bool)
        (contended page_slot : Option Bool) (envs : Nat → ZoneRunEnv)
        (extfrag : Int) (fuel : Nat) (zones : List Zone) (i rc r : Nat),
      try_to_compact_pages_loop order gfp_mask sync contended page_slot envs
        extfrag fuel zones i rc = some r → rc ≤ r) := by
  refine ⟨?_, ?_, ?_, ?_⟩
  · intro zones order gfp_mask sync contended page_slot envs extfrag fuel h
    unfold try_to_compact_pages
    rw [if_pos h]
  · intro z zs i rc order gfp_mask sync contended page_slot envs extfrag
      fuel status cc' hczo hw
    rw [try_to_compact_pages_loop, hczo]
    dsimp only []
    rw [if_pos hw]
  · intro z zs i rc order gfp_mask sync contended page_slot envs extfrag
      fuel status cc' hczo hw
    rw [try_to_compact_pages_loop, hczo]
    dsimp only []
    rw [if_neg (by simp [hw])]
  · intro order gfp_mask sync contended page_slot envs extfrag fuel zones
    induction zones with
    | nil =>
      intro i rc r h
      simp [try_to_compact_pages_loop] at h
      omega
    | cons z zs ih =>
      intro i rc r h
      rw [try_to_compact_pages_loop] at h
      cases hczo : compact_zone_order z order gfp_mask sync contended
          page_slot (envs i) extfrag fuel with
      | none => rw [hczo] at h; exact absurd h (by simp)
      | some p =>
        obtain ⟨status, cc'⟩ := p
        rw [hczo] at h
        dsimp only [] at h
        by_cases hw : z.watermark_ok order.toNat z.low_wmark = true
        · rw [if_pos hw] at h
          simp at h
          omega
        · rw [if_neg hw] at h
          have := ih (i + 1) (max status rc) r h
          omega

/-- Witness for C8: the GFP short-circuit at order 0; the early break at a
zone whose low watermark already passes (the second zone is never
visited); the fold keeps the running maximum. -/
theorem claim_C8_witness :
    try_to_compact_pages [] 0 0xC8 false none none (fun _ => envD) 500 1 =
      some COMPACT_SKIPPED ∧
    try_to_compact_pages_loop 3 0xC8 false none none (fun _ => envD) 500 1
      [zoneSkip, zoneA] 0 COMPACT_SKIPPED =
      some (max COMPACT_SKIPPED COMPACT_SKIPPED) ∧
    (5 : Nat) ≤ 5 :=
  ⟨claim_C8_entry_point.1 [] 0 0xC8 false none none (fun _ => envD) 500 1
      (Or.inl rfl),
    claim_C8_entry_point.2.1 zoneSkip [zoneA] 0 COMPACT_SKIPPED 3 0xC8
      false none none (fun _ => envD) 500 1 COMPACT_SKIPPED
      { nr_freepages := 0, nr_migratepages := 0, freepages := [],
        migratepages := [], order := 3,
        migratetype := allocflags_to_migratetype 0xC8,
        zone_id := 0, sync := false, migrate_pfn := 0, free_pfn := 0,
        contended := none, page := none } rfl rfl,
    claim_C8_entry_point.2.2.2 3 0xC8 false none none (fun _ => envD) 500 1
      [] 0 5 5 rfl⟩

/-- Witness for C10 at a concrete input (the empty node list, write). -/
theorem claim_C10_witness :
    COMPACT_COMPLETE = COMPACT_COMPLETE ∧ (3 : Nat) = COMPACT_COMPLETE := by
  constructor
  · exact claim_C10_complete.1 [] true (fun _ _ => false) (fun _ _ => envD)
      500 1 COMPACT_COMPLETE [] rfl
  · exact (claim_C10_complete.2 [] (fun _ _ => false) (fun _ _ => envD)
      500 1 3 rfl).symm ▸ rfl

end Compaction
